import Mathlib

/-!
Shallow embedding of `confirm_server.py` — the incremental digital-twin
simulation engine for a waste-collection fleet.

Python floats are modelled as exact rationals (`ℚ`); the mutable module
globals (`routes`, `zones`, `truck_state`) are gathered into an explicit
`ServerState` record that every operation threads.  The distance provider
(`calculate_distance_km`, a haversine/fallback hybrid over a coordinate
table) is passed as an abstract function `String → String → ℚ`, exactly as
the engine consumes it; no claim depends on particular distances.
-/

namespace ConfirmServer

/-- `ALPHA_KWH_PER_KM = 0.86` (empty-vehicle per-km draw). -/
def ALPHA_KWH_PER_KM : ℚ := 86 / 100

/-- `BETA_KWH_PER_KG_KM = ALPHA_KWH_PER_KM / 10000` (marginal per-kg-per-km draw). -/
def BETA_KWH_PER_KG_KM : ℚ := ALPHA_KWH_PER_KM / 10000

/-- `MAX_BATTERY_KWH = 100.0`. -/
def MAX_BATTERY_KWH : ℚ := 100

/-- `MIN_BATTERY_KWH = 20.0`. -/
def MIN_BATTERY_KWH : ℚ := 20

/-- `MAX_LOAD_KG = 5000.0`. -/
def MAX_LOAD_KG : ℚ := 5000

/-- `DEPOT_NAME = "Parking"` (depot node name in routes). -/
def DEPOT_NAME : String := "Parking"

/-- A route record (`routes` list entries). -/
structure Route where
  truckId : Int
  nodeSequence : List String
  totalDistanceKm : ℚ
  totalEnergyKWh : ℚ
  totalCollectedWeightKg : ℚ
  status : String
  deriving Repr, DecidableEq

/-- A zone record (`zones` list entries). -/
structure Zone where
  id : Int
  truckId : Int
  zone : String
  binId : Int
  fillLevelPercent : Int
  estimatedWeightKg : ℚ
  status : String
  deriving Repr, DecidableEq

/-- A digital-twin record (`truck_state[truckId]`). -/
structure TruckState where
  truckId : Int
  currentLocation : String
  cumDistanceKm : ℚ
  cumCollectedWeightKg : ℚ
  cumEnergyKWh : ℚ
  batteryKWh : ℚ
  fillRatio : ℚ
  efficiencyKWhPerKg : ℚ
  rangeLeftKm : ℚ
  status : String
  deriving Repr, DecidableEq

/-- The mutable module state: `routes`, `zones` and the `truck_state` dict
(an insertion-ordered association list, matching a Python dict). -/
structure ServerState where
  routes : List Route
  zones : List Zone
  truckState : List (Int × TruckState)
  deriving Repr, DecidableEq

/-- Dict read: `truck_state.get(truckId)`. -/
def lookupTS (ts : List (Int × TruckState)) (tid : Int) : Option TruckState :=
  (ts.find? (fun p => p.1 == tid)).map Prod.snd

/-- Dict write: `truck_state[truckId] = v` — replaces in place when the key
exists (keeping its position), appends otherwise. -/
def setTS (ts : List (Int × TruckState)) (tid : Int) (v : TruckState) :
    List (Int × TruckState) :=
  if ts.any (fun p => p.1 == tid) then
    ts.map (fun p => if p.1 == tid then (tid, v) else p)
  else
    ts ++ [(tid, v)]

/-- The fresh twin built by `init_truck_state_if_needed`. -/
def defaultTruckState (tid : Int) : TruckState :=
  { truckId := tid
    currentLocation := DEPOT_NAME
    cumDistanceKm := 0
    cumCollectedWeightKg := 0
    cumEnergyKWh := 0
    batteryKWh := MAX_BATTERY_KWH
    fillRatio := 0
    efficiencyKWhPerKg := 0
    rangeLeftKm := (MAX_BATTERY_KWH / ALPHA_KWH_PER_KM) * (8 / 10)
    status := "IDLE" }

/-- `init_truck_state_if_needed(truck_id, reset)`. -/
def init_truck_state_if_needed (s : ServerState) (tid : Int) (reset : Bool) :
    ServerState :=
  if reset || (lookupTS s.truckState tid).isNone then
    { s with truckState := setTS s.truckState tid (defaultTruckState tid) }
  else s

/-- `reset_all_states()`. -/
def reset_all_states (s : ServerState) : ServerState :=
  let s1 : ServerState :=
    { routes := s.routes.map (fun r => { r with status := "Pending" })
      zones := s.zones.map (fun z => { z with status := "Pending" })
      truckState := [] }
  s1.routes.foldl (fun acc r => init_truck_state_if_needed acc r.truckId true) s1

/-- `get_route_for_truck(truck_id)` — first route with the given truckId. -/
def get_route_for_truck (s : ServerState) (tid : Int) : Option Route :=
  s.routes.find? (fun r => r.truckId == tid)

/-- `get_zones_for_truck(truck_id)`. -/
def get_zones_for_truck (s : ServerState) (tid : Int) : List Zone :=
  s.zones.filter (fun z => z.truckId == tid)

/-- The status string `update_route_status` derives from a truck's zones:
`all` of an empty list is `True`, so zero zones give `"Collected"`. -/
def routeStatusOf (truckZones : List Zone) : String :=
  if truckZones.all (fun z => z.status == "Collected") then "Collected"
  else if truckZones.any (fun z => z.status == "Collected") then "InProgress"
  else "Pending"

/-- Overwrite the status of the first route with the given truckId (the one
`get_route_for_truck` returns and `update_route_status` mutates). -/
def setFirstRouteStatus : List Route → Int → String → List Route
  | [], _, _ => []
  | r :: rest, tid, st =>
      if r.truckId == tid then { r with status := st } :: rest
      else r :: setFirstRouteStatus rest tid st

/-- `update_route_status(truck_id)`. -/
def update_route_status (s : ServerState) (tid : Int) : ServerState :=
  match get_route_for_truck s tid with
  | none => s
  | some _ =>
      { s with routes :=
          setFirstRouteStatus s.routes tid (routeStatusOf (get_zones_for_truck s tid)) }

/-- Decimal digit-list value, or `none` when empty or a non-digit occurs. -/
def parseDigits : List Char → Option Nat
  | [] => none
  | cs => cs.foldl
      (fun acc c =>
        match acc with
        | none => none
        | some n => if c.isDigit then some (n * 10 + (c.toNat - 48)) else none)
      (some 0)

/-- `int(node)` wrapped in `try/except ValueError`: an optional sign
followed by one or more decimal digits (the node identifiers the engine
sees are plain digit strings such as `"61"`). -/
def parseIntStr (s : String) : Option Int :=
  match s.data with
  | '-' :: cs => (parseDigits cs).map (fun n => -(n : Int))
  | cs => (parseDigits cs).map (fun n => (n : Int))

/-- The `ordered_bins` scan of `next_pending_zone_for_truck`: non-depot
nodes of the nodeSequence that parse as integers, in order. -/
def orderedBins (nodeSequence : List String) : List Int :=
  nodeSequence.foldr
    (fun node acc =>
      if node == DEPOT_NAME then acc
      else match parseIntStr node with
        | some n => n :: acc
        | none => acc)
    []

/-- `next_pending_zone_for_truck(truck_id)`. -/
def next_pending_zone_for_truck (s : ServerState) (tid : Int) : Option Zone :=
  match get_route_for_truck s tid with
  | none => none
  | some route =>
      let truckZones := get_zones_for_truck s tid
      (orderedBins route.nodeSequence).findSome? (fun binId =>
        truckZones.find? (fun z => z.binId == binId && z.status == "Pending"))

/-- `calculate_energy_kwh(distance_km, current_carried_weight_kg)`. -/
def calculate_energy_kwh (distanceKm currentCarriedWeightKg : ℚ) : ℚ :=
  ALPHA_KWH_PER_KM * distanceKm
    + BETA_KWH_PER_KG_KM * distanceKm * currentCarriedWeightKg

/-- `update_kpis(state)`. -/
def update_kpis (st : TruckState) : TruckState :=
  { st with
    fillRatio := if MAX_LOAD_KG > 0 then st.cumCollectedWeightKg / MAX_LOAD_KG else 0
    efficiencyKWhPerKg := st.cumEnergyKWh / max st.cumCollectedWeightKg 1
    rangeLeftKm := (st.batteryKWh / ALPHA_KWH_PER_KM) * (8 / 10) }

/-- Overwrite the status of the first zone with the given id (the record the
`/confirm-zone` handler's linear scan finds and later mutates). -/
def setFirstZoneStatusById : List Zone → Int → String → List Zone
  | [], _, _ => []
  | z :: rest, zid, st =>
      if z.id == zid then { z with status := st } :: rest
      else z :: setFirstZoneStatusById rest zid st

/-- The distinct JSON outcomes of the `/confirm-zone` handler. -/
inductive ConfirmResult where
  | routeNotFound : ConfirmResult
  | zoneNotFound : ConfirmResult
  | wrongOwner : ConfirmResult
  | notPending : ConfirmResult
  | noPendingLeft : ConfirmResult
  | notNext (expectedNextZoneId expectedNextBinId : Int) : ConfirmResult
  | batteryLow (batteryKWh neededEnergyKWh minBatteryKWh : ℚ) : ConfirmResult
  | capacityExceeded (cumCollectedWeightKg maxLoadKg : ℚ) : ConfirmResult
  | ok (truckState : TruckState) (zone : Zone) (route : Option Route) : ConfirmResult
  deriving Repr, DecidableEq

/-- `True` exactly on the success outcome. -/
def ConfirmResult.isOk : ConfirmResult → Bool
  | .ok _ _ _ => true
  | _ => false

/-- The `/confirm-zone` handler (`confirm_zone`), after JSON parsing: takes
the abstract distance provider, the state and the request's `truckId` and
`zoneId`; returns the response outcome and the new state.  Mirrors the
handler line by line, including the in-place mutations that precede an
early-returned error. -/
def confirm_zone (dist : String → String → ℚ) (s : ServerState)
    (tid zid : Int) : ConfirmResult × ServerState :=
  let s := init_truck_state_if_needed s tid false
  match get_route_for_truck s tid with
  | none => (.routeNotFound, s)
  | some _ =>
    match s.zones.find? (fun z => z.id == zid) with
    | none => (.zoneNotFound, s)
    | some zone =>
      if zone.truckId != tid then (.wrongOwner, s)
      else if zone.status != "Pending" then (.notPending, s)
      else
        match next_pending_zone_for_truck s tid with
        | none => (.noPendingLeft, s)
        | some expected =>
          if expected.id != zid then
            (.notNext expected.id expected.binId, s)
          else
            let st := (lookupTS s.truckState tid).getD (defaultTruckState tid)
            let distanceKm := dist st.currentLocation (toString zone.binId)
            let energyKWh := calculate_energy_kwh distanceKm st.cumCollectedWeightKg
            if st.batteryKWh - energyKWh < MIN_BATTERY_KWH then
              (.batteryLow st.batteryKWh energyKWh MIN_BATTERY_KWH, s)
            else
              let st1 : TruckState :=
                { st with
                  cumDistanceKm := st.cumDistanceKm + distanceKm
                  cumEnergyKWh := st.cumEnergyKWh + energyKWh
                  batteryKWh := st.batteryKWh - energyKWh }
              let collectedWeight := zone.estimatedWeightKg
              let st2 : TruckState :=
                { st1 with cumCollectedWeightKg := st1.cumCollectedWeightKg + collectedWeight }
              if st2.cumCollectedWeightKg > MAX_LOAD_KG then
                let st3 : TruckState := { st2 with status := "CAPACITY_RETURN" }
                (.capacityExceeded st3.cumCollectedWeightKg MAX_LOAD_KG,
                 { s with truckState := setTS s.truckState tid st3 })
              else
                let st3 := update_kpis
                  { st2 with currentLocation := toString zone.binId, status := "COLLECTING" }
                let zone' : Zone := { zone with status := "Collected" }
                let sA : ServerState := { s with truckState := setTS s.truckState tid st3 }
                let sB : ServerState := { sA with zones := setFirstZoneStatusById sA.zones zid "Collected" }
                let sC := update_route_status sB tid
                (.ok st3 zone' (get_route_for_truck sC tid), sC)

/-- One timeline entry of the full-route simulation.  The JSON keys `from`
and `to` are rendered as `src`/`dst`; keys that only some events carry
(`fillRatio`/`efficiencyKWhPerKg`/`rangeLeftKm` on `TRAVEL`/`COLLECTED_BIN`,
`zoneId`/`binId` on `CAPACITY_EXCEEDED_RETURN`) are `Option`s. -/
structure TimelineEntry where
  truckId : Int
  step : Nat
  src : String
  dst : String
  distanceKm : ℚ
  energyKWh : ℚ
  event : String
  batteryKWhBefore : ℚ
  batteryKWhAfter : ℚ
  loadKg : ℚ
  fillRatio : Option ℚ
  efficiencyKWhPerKg : Option ℚ
  rangeLeftKm : Option ℚ
  zoneId : Option Int
  binId : Option Int
  deriving Repr, DecidableEq

/-- The `zone_by_bin` lookup of `simulate_truck_full_route`: the dict
comprehension keeps, for each binId, the LAST zone of the truck with that
binId; membership never changes during the walk, so reading the current
zone list is faithful. -/
def zoneByBin (zs : List Zone) (tid binId : Int) : Option Zone :=
  (zs.filter (fun z => z.truckId == tid)).foldl
    (fun acc z => if z.binId == binId then some z else acc) none

/-- Overwrite the status of the first zone with the given truckId and
binId. -/
def setFirstZoneStatusByKey : List Zone → Int → Int → String → List Zone
  | [], _, _, _ => []
  | z :: rest, tid, binId, st =>
      if z.truckId == tid && z.binId == binId then
        { z with status := st } :: rest
      else z :: setFirstZoneStatusByKey rest tid binId st

/-- Overwrite the status of the last zone with the given truckId and binId
(the record `zone_by_bin[bin_id]` aliases and the walk mutates — the dict
comprehension keeps the last duplicate). -/
def setLastZoneStatus (zs : List Zone) (tid binId : Int) (st : String) :
    List Zone :=
  (setFirstZoneStatusByKey zs.reverse tid binId st).reverse

/-- The `for step_idx in range(len(node_seq) - 1)` walk of
`simulate_truck_full_route`, one recursive call per consecutive node pair;
threads the store, the twin and the accumulated timeline, and returns early
(the `break`s) on a battery or capacity violation. -/
def simWalkAux (dist : String → String → ℚ) (tid : Int) :
    Nat → List String → ServerState → TruckState → List TimelineEntry →
    ServerState × TruckState × List TimelineEntry
  | stepIdx, src :: dst :: rest, s, st, tl =>
    let distanceKm := dist src dst
    let energyKWh := calculate_energy_kwh distanceKm st.cumCollectedWeightKg
    if st.batteryKWh - energyKWh < MIN_BATTERY_KWH then
      (s, { st with status := "EMERGENCY_RETURN" },
       tl ++ [{ truckId := tid, step := stepIdx, src := src, dst := dst
                distanceKm := distanceKm, energyKWh := energyKWh
                event := "BATTERY_EMERGENCY_RETURN"
                batteryKWhBefore := st.batteryKWh
                batteryKWhAfter := st.batteryKWh
                loadKg := st.cumCollectedWeightKg
                fillRatio := none, efficiencyKWhPerKg := none
                rangeLeftKm := none, zoneId := none, binId := none }])
    else
      let batteryBefore := st.batteryKWh
      let st1 : TruckState :=
        { st with
          cumDistanceKm := st.cumDistanceKm + distanceKm
          cumEnergyKWh := st.cumEnergyKWh + energyKWh
          batteryKWh := st.batteryKWh - energyKWh
          currentLocation := dst }
      let pendingHere : Option Zone :=
        if dst != DEPOT_NAME then
          match parseIntStr dst with
          | some binId =>
            match zoneByBin s.zones tid binId with
            | some z => if z.status == "Pending" then some z else none
            | none => none
          | none => none
        else none
      match pendingHere with
      | some z =>
        let st2 : TruckState :=
          { st1 with cumCollectedWeightKg := st1.cumCollectedWeightKg + z.estimatedWeightKg }
        let s1 : ServerState :=
          { s with zones := setLastZoneStatus s.zones tid z.binId "Collected" }
        let s2 := update_route_status s1 tid
        if st2.cumCollectedWeightKg > MAX_LOAD_KG then
          (s2, { st2 with status := "CAPACITY_RETURN" },
           tl ++ [{ truckId := tid, step := stepIdx, src := src, dst := dst
                    distanceKm := distanceKm, energyKWh := energyKWh
                    event := "CAPACITY_EXCEEDED_RETURN"
                    batteryKWhBefore := batteryBefore
                    batteryKWhAfter := st2.batteryKWh
                    loadKg := st2.cumCollectedWeightKg
                    fillRatio := none, efficiencyKWhPerKg := none
                    rangeLeftKm := none
                    zoneId := some z.id, binId := some z.binId }])
        else
          let st3 := update_kpis st2
          simWalkAux dist tid (stepIdx + 1) (dst :: rest) s2 st3
            (tl ++ [{ truckId := tid, step := stepIdx, src := src, dst := dst
                      distanceKm := distanceKm, energyKWh := energyKWh
                      event := "COLLECTED_BIN"
                      batteryKWhBefore := batteryBefore
                      batteryKWhAfter := st3.batteryKWh
                      loadKg := st3.cumCollectedWeightKg
                      fillRatio := some st3.fillRatio
                      efficiencyKWhPerKg := some st3.efficiencyKWhPerKg
                      rangeLeftKm := some st3.rangeLeftKm
                      zoneId := none, binId := none }])
      | none =>
        let st3 := update_kpis st1
        simWalkAux dist tid (stepIdx + 1) (dst :: rest) s st3
          (tl ++ [{ truckId := tid, step := stepIdx, src := src, dst := dst
                    distanceKm := distanceKm, energyKWh := energyKWh
                    event := "TRAVEL"
                    batteryKWhBefore := batteryBefore
                    batteryKWhAfter := st3.batteryKWh
                    loadKg := st3.cumCollectedWeightKg
                    fillRatio := some st3.fillRatio
                    efficiencyKWhPerKg := some st3.efficiencyKWhPerKg
                    rangeLeftKm := some st3.rangeLeftKm
                    zoneId := none, binId := none }])
  | _, _, s, st, tl => (s, st, tl)

/-- The outcomes of `simulate_truck_full_route` (the two error dicts, or the
result dict with final state, route, zones and timeline). -/
inductive SimResult where
  | routeNotFound (tid : Int) : SimResult
  | badDepot : SimResult
  | ok (truckId : Int) (finalState : TruckState) (route : Option Route)
      (zones : List Zone) (timeline : List TimelineEntry) : SimResult
  deriving Repr, DecidableEq

/-- The timeline carried by a simulation outcome (empty for the errors). -/
def SimResult.timelineOf : SimResult → List TimelineEntry
  | .ok _ _ _ _ tl => tl
  | _ => []

/-- The final twin carried by a simulation outcome. -/
def SimResult.finalStateOf : SimResult → Option TruckState
  | .ok _ st _ _ _ => some st
  | _ => none

/-- `True` exactly on the non-error simulation outcome. -/
def SimResult.isOk : SimResult → Bool
  | .ok _ _ _ _ _ => true
  | _ => false

/-- `simulate_truck_full_route(truck_id, reset)`. -/
def simulate_truck_full_route (dist : String → String → ℚ) (s : ServerState)
    (tid : Int) (reset : Bool) : SimResult × ServerState :=
  let s := init_truck_state_if_needed s tid reset
  match get_route_for_truck s tid with
  | none => (.routeNotFound tid, s)
  | some route =>
    let nodeSeq := route.nodeSequence
    if nodeSeq.isEmpty || nodeSeq.head? != some DEPOT_NAME
        || nodeSeq.getLast? != some DEPOT_NAME then
      (.badDepot, s)
    else
      let st0 := (lookupTS s.truckState tid).getD (defaultTruckState tid)
      let stStart := update_kpis
        { st0 with currentLocation := DEPOT_NAME, status := "COLLECTING" }
      let w := simWalkAux dist tid 0 nodeSeq s stStart []
      let s1 := w.1
      let st1 := w.2.1
      let tl := w.2.2
      let truckZones := get_zones_for_truck s1 tid
      let finish := !(st1.status == "EMERGENCY_RETURN" || st1.status == "CAPACITY_RETURN")
          && truckZones.all (fun z => z.status == "Collected")
      let st2 := if finish then { st1 with status := "DONE" } else st1
      let s2 : ServerState := { s1 with truckState := setTS s1.truckState tid st2 }
      let s3 := if finish then update_route_status s2 tid else s2
      (.ok tid st2 (get_route_for_truck s3 tid) (get_zones_for_truck s3 tid) tl, s3)

/-- `simulate_fleet(reset)` — the per-truck walk applied to every route's
truckId in order (truckIds are never mutated, so snapshotting them first is
faithful to the Python `for r in routes` loop). -/
def simulate_fleet (dist : String → String → ℚ) (s : ServerState)
    (reset : Bool) : List SimResult × ServerState :=
  (s.routes.map (fun r => r.truckId)).foldl
    (fun acc tid =>
      let out := simulate_truck_full_route dist acc.2 tid reset
      (acc.1 ++ [out.1], out.2))
    ([], s)

/-- The `/simulate` endpoint: optional `reset_all_states`, then the single
truck walk (always with `reset=False`) or the fleet walk. -/
def simulate_endpoint (dist : String → String → ℚ) (s : ServerState)
    (reset : Bool) (truckId : Option Int) :
    (SimResult ⊕ List SimResult) × ServerState :=
  let s := if reset then reset_all_states s else s
  match truckId with
  | some tid =>
      let out := simulate_truck_full_route dist s tid false
      (Sum.inl out.1, out.2)
  | none =>
      let out := simulate_fleet dist s false
      (Sum.inr out.1, out.2)

/-- The lazy-init loop shared by `/routes` and `/truck-state`:
`for r in routes: init_truck_state_if_needed(r["truckId"])`. -/
def lazyInitAllRouteTrucks (s : ServerState) : ServerState :=
  s.routes.foldl (fun acc r => init_truck_state_if_needed acc r.truckId false) s

/-- The `/routes` endpoint: lazy-inits every route's truck, then returns the
routes list. -/
def get_routes_view (s : ServerState) : List Route × ServerState :=
  let s := lazyInitAllRouteTrucks s
  (s.routes, s)

/-- The `/zones` endpoint (read-only), with the optional truckId filter. -/
def get_zones_view (s : ServerState) (truckId : Option Int) : List Zone :=
  match truckId with
  | none => s.zones
  | some tid => s.zones.filter (fun z => z.truckId == tid)

/-- The `/truck-state` endpoint: lazy-inits every route's truck, then either
all twin values (dict order) or the one requested twin (lazy-inited too). -/
def get_truck_state_view (s : ServerState) (truckId : Option Int) :
    (List TruckState ⊕ TruckState) × ServerState :=
  let s := lazyInitAllRouteTrucks s
  match truckId with
  | none => (Sum.inl (s.truckState.map Prod.snd), s)
  | some tid =>
      let s := init_truck_state_if_needed s tid false
      (Sum.inr ((lookupTS s.truckState tid).getD (defaultTruckState tid)), s)

/-- The static `routes` mock data. -/
def initialRoutes : List Route :=
  [{ truckId := 1
     nodeSequence := ["Parking", "61", "31", "12", "18", "Parking"]
     totalDistanceKm := 184 / 10, totalEnergyKWh := 202 / 10
     totalCollectedWeightKg := 140, status := "Pending" },
   { truckId := 2
     nodeSequence := ["Parking", "22", "35", "44", "Parking"]
     totalDistanceKm := 151 / 10, totalEnergyKWh := 166 / 10
     totalCollectedWeightKg := 105, status := "Pending" },
   { truckId := 3
     nodeSequence := ["Parking", "52", "70", "81", "99", "Parking"]
     totalDistanceKm := 217 / 10, totalEnergyKWh := 239 / 10
     totalCollectedWeightKg := 140, status := "Pending" }]

/-- The static `zones` mock data. -/
def initialZones : List Zone :=
  [{ id := 101, truckId := 1, zone := "Zone A1", binId := 61
     fillLevelPercent := 80, estimatedWeightKg := 35, status := "Pending" },
   { id := 102, truckId := 1, zone := "Zone A2", binId := 31
     fillLevelPercent := 60, estimatedWeightKg := 30, status := "Pending" },
   { id := 103, truckId := 1, zone := "Zone B1", binId := 12
     fillLevelPercent := 75, estimatedWeightKg := 40, status := "Pending" },
   { id := 104, truckId := 1, zone := "Zone B2", binId := 18
     fillLevelPercent := 50, estimatedWeightKg := 35, status := "Pending" },
   { id := 201, truckId := 2, zone := "Zone C1", binId := 22
     fillLevelPercent := 70, estimatedWeightKg := 35, status := "Pending" },
   { id := 202, truckId := 2, zone := "Zone C2", binId := 35
     fillLevelPercent := 65, estimatedWeightKg := 35, status := "Pending" },
   { id := 203, truckId := 2, zone := "Zone D1", binId := 44
     fillLevelPercent := 55, estimatedWeightKg := 35, status := "Pending" },
   { id := 301, truckId := 3, zone := "Zone D2", binId := 52
     fillLevelPercent := 85, estimatedWeightKg := 35, status := "Pending" },
   { id := 302, truckId := 3, zone := "Zone E1", binId := 70
     fillLevelPercent := 90, estimatedWeightKg := 35, status := "Pending" },
   { id := 303, truckId := 3, zone := "Zone E2", binId := 81
     fillLevelPercent := 65, estimatedWeightKg := 35, status := "Pending" },
   { id := 304, truckId := 3, zone := "Zone F1", binId := 99
     fillLevelPercent := 40, estimatedWeightKg := 35, status := "Pending" }]

/-- The state at module load: the mock data, and an empty twin store. -/
def initialState : ServerState :=
  { routes := initialRoutes, zones := initialZones, truckState := [] }

/-! ### Basic lemmas about the state helpers -/

/-- When the twin already exists, the lazy init is a no-op. -/
theorem init_noop_of_lookup {s : ServerState} {tid : Int} {st0 : TruckState}
    (h : lookupTS s.truckState tid = some st0) :
    init_truck_state_if_needed s tid false = s := by
  simp [init_truck_state_if_needed, h]

/-- The zone `find?` by id indeed matches the requested id. -/
theorem find_zone_id {zs : List Zone} {zid : Int} {z : Zone}
    (h : zs.find? (fun z' => z'.id == zid) = some z) : z.id = zid := by
  have := List.find?_some h
  simpa using this

/-- A common witness fixture: the constant distance provider. -/
def wDist : String → String → ℚ := fun _ _ => 1

/-- A common witness fixture: the initial state with truck 1's twin
lazily initialized. -/
def wState : ServerState := init_truck_state_if_needed initialState 1 false

/-! ### C2 — energy model and pre-pickup load -/

/-- C2: the energy model returns exactly
`distanceKm * (ALPHA_KWH_PER_KM + BETA_KWH_PER_KG_KM * load)`, and a
successful confirm-zone charges the travel segment with the truck's
`cumCollectedWeightKg` as it was before the pickup's weight is added: the
post twin's `cumEnergyKWh` and `batteryKWh` move by
`calculate_energy_kwh distance st0.cumCollectedWeightKg` while
`cumCollectedWeightKg` then gains the zone's estimated weight. -/
theorem C2_energy_model (dist : String → String → ℚ) (d w : ℚ)
    (hd : 0 ≤ d) (hw : 0 ≤ w)
    (s : ServerState) (tid zid : Int) (st0 : TruckState)
    (route : Route) (z : Zone)
    (hroute : get_route_for_truck s tid = some route)
    (hst : lookupTS s.truckState tid = some st0)
    (hz : s.zones.find? (fun z' => z'.id == zid) = some z)
    (hown : z.truckId = tid)
    (hpend : z.status = "Pending")
    (hexp : next_pending_zone_for_truck s tid = some z)
    (hbat : ¬(st0.batteryKWh
        - calculate_energy_kwh (dist st0.currentLocation (toString z.binId))
            st0.cumCollectedWeightKg < MIN_BATTERY_KWH))
    (hcap : ¬(st0.cumCollectedWeightKg + z.estimatedWeightKg > MAX_LOAD_KG)) :
    calculate_energy_kwh d w
        = d * (ALPHA_KWH_PER_KM + BETA_KWH_PER_KG_KM * w)
      ∧ ∃ st' ro s',
          confirm_zone dist s tid zid
              = (.ok st' { z with status := "Collected" } ro, s')
            ∧ st'.cumEnergyKWh = st0.cumEnergyKWh
                + calculate_energy_kwh
                    (dist st0.currentLocation (toString z.binId))
                    st0.cumCollectedWeightKg
            ∧ st'.batteryKWh = st0.batteryKWh
                - calculate_energy_kwh
                    (dist st0.currentLocation (toString z.binId))
                    st0.cumCollectedWeightKg
            ∧ st'.cumDistanceKm = st0.cumDistanceKm
                + dist st0.currentLocation (toString z.binId)
            ∧ st'.cumCollectedWeightKg
                = st0.cumCollectedWeightKg + z.estimatedWeightKg := by
  refine ⟨by unfold calculate_energy_kwh; ring, ?_⟩
  have hid : z.id = zid := find_zone_id hz
  simp only [confirm_zone, init_noop_of_lookup hst, hroute, hz, hst,
    Option.getD_some, hexp, hown, hpend, hid, bne_self_eq_false,
    Bool.false_eq_true, if_false, if_neg hbat, if_neg hcap]
  exact ⟨_, _, _, rfl, rfl, rfl, rfl, rfl⟩

/-- C2 witness: concrete success on the initial data (truck 1, zone 101,
unit distances). -/
theorem C2_energy_model_witness :
    calculate_energy_kwh 2 3
        = 2 * (ALPHA_KWH_PER_KM + BETA_KWH_PER_KG_KM * 3)
      ∧ ∃ st' ro s',
          confirm_zone wDist wState 1 101
              = (.ok st'
                  { id := 101, truckId := 1, zone := "Zone A1", binId := 61
                    fillLevelPercent := 80, estimatedWeightKg := 35
                    status := "Collected" } ro, s')
            ∧ st'.cumEnergyKWh = (defaultTruckState 1).cumEnergyKWh
                + calculate_energy_kwh
                    (wDist (defaultTruckState 1).currentLocation (toString (61 : Int)))
                    (defaultTruckState 1).cumCollectedWeightKg
            ∧ st'.batteryKWh = (defaultTruckState 1).batteryKWh
                - calculate_energy_kwh
                    (wDist (defaultTruckState 1).currentLocation (toString (61 : Int)))
                    (defaultTruckState 1).cumCollectedWeightKg
            ∧ st'.cumDistanceKm = (defaultTruckState 1).cumDistanceKm
                + wDist (defaultTruckState 1).currentLocation (toString (61 : Int))
            ∧ st'.cumCollectedWeightKg
                = (defaultTruckState 1).cumCollectedWeightKg + 35 :=
  C2_energy_model wDist 2 3 (by norm_num) (by norm_num) wState 1 101
    (defaultTruckState 1)
    { truckId := 1
      nodeSequence := ["Parking", "61", "31", "12", "18", "Parking"]
      totalDistanceKm := 184 / 10, totalEnergyKWh := 202 / 10
      totalCollectedWeightKg := 140, status := "Pending" }
    { id := 101, truckId := 1, zone := "Zone A1", binId := 61
      fillLevelPercent := 80, estimatedWeightKg := 35, status := "Pending" }
    rfl rfl rfl rfl rfl (by decide)
    (by norm_num [defaultTruckState, wDist, calculate_energy_kwh,
      ALPHA_KWH_PER_KM, BETA_KWH_PER_KG_KM, MIN_BATTERY_KWH, MAX_BATTERY_KWH])
    (by norm_num [defaultTruckState, MAX_LOAD_KG])

/-! ### C6 — route status derivation -/

/-- C6 counterexample: a route owning zero zones is recomputed to
`"Collected"` (Python's `all` of an empty list is `True`), not `"Pending"`
as claimed. -/
theorem C6_counterexample :
    routeStatusOf [] = "Collected"
      ∧ ((update_route_status
            { routes := [{ truckId := 4, nodeSequence := ["Parking", "Parking"]
                           totalDistanceKm := 0, totalEnergyKWh := 0
                           totalCollectedWeightKg := 0, status := "Pending" }]
              zones := [], truckState := [] } 4).routes.map
            (fun r => r.status)) = ["Collected"]
      ∧ ("Collected" : String) ≠ "Pending" := by
  refine ⟨rfl, rfl, by decide⟩

/-- After overwriting the first route with a truckId, `find?` by that
truckId returns it with the new status. -/
theorem find_setFirstRouteStatus (rs : List Route) (tid : Int) (stat : String)
    (r : Route) (h : rs.find? (fun r' => r'.truckId == tid) = some r) :
    (setFirstRouteStatus rs tid stat).find? (fun r' => r'.truckId == tid)
      = some { r with status := stat } := by
  induction rs with
  | nil => simp at h
  | cons hd tl ih =>
      by_cases hhd : hd.truckId = tid
      · have hb : (hd.truckId == tid) = true := by simp [hhd]
        simp only [List.find?, hb, Option.some.injEq] at h
        subst h
        simp [setFirstRouteStatus, hb, List.find?]
      · have hb : (hd.truckId == tid) = false := by simp [hhd]
        simp only [List.find?, hb] at h
        simp only [setFirstRouteStatus, hb, if_false, List.find?]
        exact ih h

/-- Case analysis on the three status strings `routeStatusOf` can return. -/
theorem routeStatusOf_spec (zs : List Zone) :
    (routeStatusOf zs = "Collected" ↔ ∀ z ∈ zs, z.status = "Collected")
      ∧ (routeStatusOf zs = "InProgress"
          ↔ ((∃ z ∈ zs, z.status = "Collected")
              ∧ ∃ z ∈ zs, z.status ≠ "Collected"))
      ∧ (routeStatusOf zs = "Pending"
          ↔ (zs ≠ [] ∧ ∀ z ∈ zs, z.status ≠ "Collected")) := by
  unfold routeStatusOf
  by_cases hall : zs.all (fun z => z.status == "Collected")
  · rw [List.all_eq_true] at hall
    simp only [beq_iff_eq] at hall
    rw [if_pos (by rw [List.all_eq_true]; simpa using hall)]
    refine ⟨by simpa using hall, ?_, ?_⟩
    · constructor
      · intro h; exact absurd h (by decide)
      · rintro ⟨_, ⟨z, hz, hne⟩⟩; exact absurd (hall z hz) hne
    · constructor
      · intro h; exact absurd h (by decide)
      · rintro ⟨hne, hnone⟩
        match zs, hne with
        | z :: _, _ => exact absurd (hall z (by simp)) (hnone z (by simp))
  · rw [if_neg hall]
    have hex : ∃ z ∈ zs, z.status ≠ "Collected" := by
      by_contra hc
      push_neg at hc
      exact hall (by rw [List.all_eq_true]; simpa using hc)
    have hne : zs ≠ [] := by
      rintro rfl
      obtain ⟨z, hz, _⟩ := hex
      simp at hz
    by_cases hany : zs.any (fun z => z.status == "Collected")
    · rw [List.any_eq_true] at hany
      simp only [beq_iff_eq] at hany
      rw [if_pos (by rw [List.any_eq_true]; simpa using hany)]
      refine ⟨?_, ?_, ?_⟩
      · constructor
        · intro h; exact absurd h (by decide)
        · intro h
          obtain ⟨z, hz, hzn⟩ := hex
          exact absurd (h z hz) hzn
      · simpa using ⟨hany, hex⟩
      · constructor
        · intro h; exact absurd h (by decide)
        · rintro ⟨_, hnone⟩
          obtain ⟨z, hz, hzc⟩ := hany
          exact absurd hzc (hnone z hz)
    · rw [List.any_eq_true] at hany
      simp only [beq_iff_eq] at hany
      push_neg at hany
      rw [if_neg (by rw [List.any_eq_true]; simpa using hany)]
      refine ⟨?_, ?_, ?_⟩
      · constructor
        · intro h; exact absurd h (by decide)
        · intro h
          obtain ⟨z, hz, hzn⟩ := hex
          exact absurd (h z hz) hzn
      · constructor
        · intro h; exact absurd h (by decide)
        · rintro ⟨⟨z, hz, hzc⟩, _⟩
          exact absurd hzc (hany z hz)
      · simpa using ⟨hne, hany⟩

/-- C6 (amended): the recomputed route status is a pure function of the
truck's zone set — `update_route_status` stores
`routeStatusOf (get_zones_for_truck s tid)` on the truck's route, and that
status is `Collected` iff every owned zone is Collected (vacuously so for
zero owned zones, NOT `Pending` as claimed), `InProgress` iff at least one
but not all are Collected, and `Pending` iff the truck owns at least one
zone and none is Collected. -/
theorem C6_route_status_pure (s : ServerState) (tid : Int) (route : Route)
    (hroute : get_route_for_truck s tid = some route) :
    (((update_route_status s tid).routes.find? (fun r => r.truckId == tid)).map
        (fun r => r.status))
        = some (routeStatusOf (get_zones_for_truck s tid))
      ∧ (routeStatusOf (get_zones_for_truck s tid) = "Collected"
          ↔ ∀ z ∈ get_zones_for_truck s tid, z.status = "Collected")
      ∧ (routeStatusOf (get_zones_for_truck s tid) = "InProgress"
          ↔ ((∃ z ∈ get_zones_for_truck s tid, z.status = "Collected")
              ∧ ∃ z ∈ get_zones_for_truck s tid, z.status ≠ "Collected"))
      ∧ (routeStatusOf (get_zones_for_truck s tid) = "Pending"
          ↔ (get_zones_for_truck s tid ≠ []
              ∧ ∀ z ∈ get_zones_for_truck s tid, z.status ≠ "Collected")) := by
  obtain ⟨h1, h2, h3⟩ := routeStatusOf_spec (get_zones_for_truck s tid)
  refine ⟨?_, h1, h2, h3⟩
  unfold update_route_status
  rw [hroute]
  have := find_setFirstRouteStatus s.routes tid
    (routeStatusOf (get_zones_for_truck s tid)) route hroute
  simp [this]

/-- C6 witness: the amended theorem applied to truck 1 of the initial
data. -/
theorem C6_route_status_pure_witness :
    (((update_route_status initialState 1).routes.find?
        (fun r => r.truckId == 1)).map (fun r => r.status))
      = some (routeStatusOf (get_zones_for_truck initialState 1)) :=
  (C6_route_status_pure initialState 1
    { truckId := 1
      nodeSequence := ["Parking", "61", "31", "12", "18", "Parking"]
      totalDistanceKm := 184 / 10, totalEnergyKWh := 202 / 10
      totalCollectedWeightKg := 140, status := "Pending" } rfl).1

/-! ### C3 — route-order enforcement -/

/-- C3: with a next-pending zone `e` present, confirming any pending zone
owned by the truck whose id differs from `e.id` yields the ordering error,
which surfaces the expected zone's id and bin id, and leaves the state
untouched; and any confirmation that succeeds is of the next-pending
zone's id. -/
theorem C3_ordering (dist : String → String → ℚ) (s : ServerState)
    (tid zid : Int) (st0 : TruckState) (route : Route) (z e : Zone)
    (hroute : get_route_for_truck s tid = some route)
    (hst : lookupTS s.truckState tid = some st0)
    (hz : s.zones.find? (fun z' => z'.id == zid) = some z)
    (hown : z.truckId = tid)
    (hpend : z.status = "Pending")
    (hexp : next_pending_zone_for_truck s tid = some e)
    (hne : e.id ≠ zid) :
    confirm_zone dist s tid zid = (.notNext e.id e.binId, s)
      ∧ ∀ zid' : Int, (confirm_zone dist s tid zid').1.isOk = true
          → some zid' = (next_pending_zone_for_truck s tid).map (fun w => w.id) := by
  constructor
  · have hbne : (e.id != zid) = true := by simpa [bne_iff_ne] using hne
    simp only [confirm_zone, init_noop_of_lookup hst, hroute, hz, hown, hpend,
      hexp, hbne, bne_self_eq_false, Bool.false_eq_true, if_false, if_true]
  · intro zid' hok
    rw [hexp, Option.map_some']
    simp only [confirm_zone, init_noop_of_lookup hst, hroute, hexp] at hok
    generalize hO : s.zones.find? (fun z'' => z''.id == zid') = o at hok
    cases o with
    | none => simp [ConfirmResult.isOk] at hok
    | some z' =>
      by_cases h1 : z'.truckId = tid
      · have hb1 : (z'.truckId != tid) = false := by simp [h1]
        simp only [hb1, Bool.false_eq_true, if_false] at hok
        by_cases h2 : z'.status = "Pending"
        · have hb2 : (z'.status != "Pending") = false := by simp [h2]
          simp only [hb2, Bool.false_eq_true, if_false] at hok
          by_cases hid : e.id = zid'
          · rw [hid]
          · have hb3 : (e.id != zid') = true := by simpa [bne_iff_ne] using hid
            simp only [hb3, if_true] at hok
            simp [ConfirmResult.isOk] at hok
        · have hb2 : (z'.status != "Pending") = true := by
            simpa [bne_iff_ne] using h2
          simp only [hb2, if_true] at hok
          simp [ConfirmResult.isOk] at hok
      · have hb1 : (z'.truckId != tid) = true := by simpa [bne_iff_ne] using h1
        simp only [hb1, if_true] at hok
        simp [ConfirmResult.isOk] at hok

/-- C3 witness: on the initial data, confirming zone 102 for truck 1
(pending, owned, but second in route order) is refused with the ordering
error naming zone 101 / bin 61, and no state changes. -/
theorem C3_ordering_witness :
    confirm_zone wDist wState 1 102 = (.notNext 101 61, wState)
      ∧ ∀ zid' : Int, (confirm_zone wDist wState 1 zid').1.isOk = true
          → some zid' = (next_pending_zone_for_truck wState 1).map (fun w => w.id) := by
  have h := C3_ordering wDist wState 1 102 (defaultTruckState 1)
    { truckId := 1
      nodeSequence := ["Parking", "61", "31", "12", "18", "Parking"]
      totalDistanceKm := 184 / 10, totalEnergyKWh := 202 / 10
      totalCollectedWeightKg := 140, status := "Pending" }
    { id := 102, truckId := 1, zone := "Zone A2", binId := 31
      fillLevelPercent := 60, estimatedWeightKg := 30, status := "Pending" }
    { id := 101, truckId := 1, zone := "Zone A1", binId := 61
      fillLevelPercent := 80, estimatedWeightKg := 35, status := "Pending" }
    rfl rfl rfl rfl rfl (by decide) (by decide)
  exact h

/-! ### C4 — battery-safety precondition -/

/-- C4: when the segment energy would leave the battery strictly below
`MIN_BATTERY_KWH` the confirmation is rejected with the battery error and
the state is completely unchanged; with remaining battery exactly
`MIN_BATTERY_KWH + energy` the battery rejection does not fire; and any
successful confirmation leaves `batteryKWh ≥ MIN_BATTERY_KWH`. -/
theorem C4_battery (dist : String → String → ℚ) (s : ServerState)
    (tid zid : Int) (st0 : TruckState) (route : Route) (z : Zone)
    (hroute : get_route_for_truck s tid = some route)
    (hst : lookupTS s.truckState tid = some st0)
    (hz : s.zones.find? (fun z' => z'.id == zid) = some z)
    (hown : z.truckId = tid)
    (hpend : z.status = "Pending")
    (hexp : next_pending_zone_for_truck s tid = some z) :
    (st0.batteryKWh
          - calculate_energy_kwh (dist st0.currentLocation (toString z.binId))
              st0.cumCollectedWeightKg < MIN_BATTERY_KWH
        → confirm_zone dist s tid zid
            = (.batteryLow st0.batteryKWh
                (calculate_energy_kwh (dist st0.currentLocation (toString z.binId))
                  st0.cumCollectedWeightKg) MIN_BATTERY_KWH, s))
      ∧ (st0.batteryKWh = MIN_BATTERY_KWH
            + calculate_energy_kwh (dist st0.currentLocation (toString z.binId))
                st0.cumCollectedWeightKg
          → ∀ b n m, (confirm_zone dist s tid zid).1 ≠ .batteryLow b n m)
      ∧ (∀ st' zr ro s', confirm_zone dist s tid zid = (.ok st' zr ro, s')
          → MIN_BATTERY_KWH ≤ st'.batteryKWh) := by
  have hid : z.id = zid := find_zone_id hz
  refine ⟨?_, ?_, ?_⟩
  · intro hlow
    simp only [confirm_zone, init_noop_of_lookup hst, hroute, hz, hst,
      Option.getD_some, hown, hpend, hexp, hid, bne_self_eq_false,
      Bool.false_eq_true, if_false]
    rw [if_pos hlow]
  · intro hexact b n m
    have hnb : ¬(st0.batteryKWh
        - calculate_energy_kwh (dist st0.currentLocation (toString z.binId))
            st0.cumCollectedWeightKg < MIN_BATTERY_KWH) := by
      rw [hexact, add_sub_cancel_right]
      exact lt_irrefl _
    simp only [confirm_zone, init_noop_of_lookup hst, hroute, hz, hst,
      Option.getD_some, hown, hpend, hexp, hid, bne_self_eq_false,
      Bool.false_eq_true, if_false]
    rw [if_neg hnb]
    split
    · simp
    · simp
  · intro st' zr ro s' hok
    simp only [confirm_zone, init_noop_of_lookup hst, hroute, hz, hst,
      Option.getD_some, hown, hpend, hexp, hid, bne_self_eq_false,
      Bool.false_eq_true, if_false] at hok
    by_cases hlow : st0.batteryKWh
        - calculate_energy_kwh (dist st0.currentLocation (toString z.binId))
            st0.cumCollectedWeightKg < MIN_BATTERY_KWH
    · rw [if_pos hlow] at hok
      simp at hok
    · rw [if_neg hlow] at hok
      split at hok
      · simp at hok
      · simp only [Prod.mk.injEq, ConfirmResult.ok.injEq] at hok
        obtain ⟨⟨h1, _, _⟩, _⟩ := hok
        subst h1
        simpa [update_kpis] using not_lt.mp hlow

/-- C4 witness: truck 1 / zone 101 of the initial data with unit
distances; all three clauses of the battery theorem instantiated. -/
theorem C4_battery_witness :
    ((defaultTruckState 1).batteryKWh
          - calculate_energy_kwh
              (wDist (defaultTruckState 1).currentLocation (toString (61 : Int)))
              (defaultTruckState 1).cumCollectedWeightKg < MIN_BATTERY_KWH
        → confirm_zone wDist wState 1 101
            = (.batteryLow (defaultTruckState 1).batteryKWh
                (calculate_energy_kwh
                  (wDist (defaultTruckState 1).currentLocation (toString (61 : Int)))
                  (defaultTruckState 1).cumCollectedWeightKg)
                MIN_BATTERY_KWH, wState))
      ∧ ((defaultTruckState 1).batteryKWh = MIN_BATTERY_KWH
            + calculate_energy_kwh
                (wDist (defaultTruckState 1).currentLocation (toString (61 : Int)))
                (defaultTruckState 1).cumCollectedWeightKg
          → ∀ b n m, (confirm_zone wDist wState 1 101).1 ≠ .batteryLow b n m)
      ∧ (∀ st' zr ro s', confirm_zone wDist wState 1 101 = (.ok st' zr ro, s')
          → MIN_BATTERY_KWH ≤ st'.batteryKWh) :=
  C4_battery wDist wState 1 101 (defaultTruckState 1)
    { truckId := 1
      nodeSequence := ["Parking", "61", "31", "12", "18", "Parking"]
      totalDistanceKm := 184 / 10, totalEnergyKWh := 202 / 10
      totalCollectedWeightKg := 140, status := "Pending" }
    { id := 101, truckId := 1, zone := "Zone A1", binId := 61
      fillLevelPercent := 80, estimatedWeightKg := 35, status := "Pending" }
    rfl rfl rfl rfl rfl (by decide)

/-! ### The capacity-rejection path of `confirm_zone` (shared by C1, C10) -/

/-- Fixture: the constant-zero distance provider. -/
def wDist0 : String → String → ℚ := fun _ _ => 0

/-- Fixture: one truck (id 5) with one oversized zone (id 501, 6000 kg). -/
def cxState : ServerState :=
  { routes := [{ truckId := 5, nodeSequence := ["Parking", "7", "Parking"]
                 totalDistanceKm := 0, totalEnergyKWh := 0
                 totalCollectedWeightKg := 6000, status := "Pending" }]
    zones := [{ id := 501, truckId := 5, zone := "Zone X1", binId := 7
                fillLevelPercent := 100, estimatedWeightKg := 6000
                status := "Pending" }]
    truckState := [(5, defaultTruckState 5)] }

/-- `truck_state[tid] = v` followed by `truck_state.get(tid)` yields `v`. -/
theorem lookupTS_setTS_self (ts : List (Int × TruckState)) (tid : Int)
    (v : TruckState) : lookupTS (setTS ts tid v) tid = some v := by
  unfold setTS
  by_cases h : ts.any (fun p => p.1 == tid)
  · rw [if_pos h]
    induction ts with
    | nil => simp at h
    | cons hd tl ih =>
        by_cases hh : hd.1 = tid
        · simp [lookupTS, List.find?, hh]
        · have hb : (hd.1 == tid) = false := by simp [hh]
          simp only [List.any_cons, hb, Bool.false_or] at h
          simp only [List.map_cons, hb, Bool.false_eq_true, if_false]
          simp only [lookupTS, List.find?, hb] at ih ⊢
          exact ih h
  · rw [if_neg h]
    rw [List.any_eq_true] at h
    push_neg at h
    unfold lookupTS
    rw [List.find?_append]
    have hnone : ts.find? (fun p => p.1 == tid) = none := by
      rw [List.find?_eq_none]
      intro p hp
      simpa using h p hp
    simp [hnone, List.find?]

/-- A `truck_state` write for one truck leaves every other truck's
`truck_state.get` unchanged. -/
theorem lookupTS_setTS_ne (ts : List (Int × TruckState)) (tid tid' : Int)
    (v : TruckState) (hne : tid' ≠ tid) :
    lookupTS (setTS ts tid v) tid' = lookupTS ts tid' := by
  have hmap : ∀ l : List (Int × TruckState),
      List.find? (fun p => p.1 == tid')
          (l.map (fun p => if p.1 == tid then (tid, v) else p))
        = List.find? (fun p => p.1 == tid') l := by
    intro l
    induction l with
    | nil => rfl
    | cons hd tl ih =>
        by_cases hh : hd.1 = tid
        · have hb0 : (hd.1 == tid) = true := by simp [hh]
          have h1 : ((tid : Int) == tid') = false :=
            beq_eq_false_iff_ne.mpr (Ne.symm hne)
          have h2 : (hd.1 == tid') = false := by
            rw [hh]
            exact h1
          simp only [List.map_cons, List.find?, hb0, if_true, h1, h2]
          exact ih
        · have hb0 : (hd.1 == tid) = false := by simp [hh]
          simp only [List.map_cons, List.find?, hb0, Bool.false_eq_true, if_false]
          cases hb' : (hd.1 == tid') with
          | true => rfl
          | false => exact ih
  unfold setTS
  by_cases h : ts.any (fun p => p.1 == tid)
  · rw [if_pos h]
    unfold lookupTS
    rw [hmap]
  · rw [if_neg h]
    unfold lookupTS
    rw [List.find?_append]
    have hb : (((tid, v) : Int × TruckState).1 == tid') = false :=
      beq_eq_false_iff_ne.mpr (Ne.symm hne)
    simp [List.find?, hb]

/-- The capacity-rejection path of `confirm_zone`: once the earlier checks
pass and the battery check holds, an over-capacity pickup returns the
capacity error with the travel AND the weight increment already committed
to the twin (status `CAPACITY_RETURN`), zones and routes untouched. -/
theorem confirm_zone_capacity_path (dist : String → String → ℚ)
    (s : ServerState) (tid zid : Int) (st0 : TruckState) (route : Route)
    (z : Zone)
    (hroute : get_route_for_truck s tid = some route)
    (hst : lookupTS s.truckState tid = some st0)
    (hz : s.zones.find? (fun z' => z'.id == zid) = some z)
    (hown : z.truckId = tid)
    (hpend : z.status = "Pending")
    (hexp : next_pending_zone_for_truck s tid = some z)
    (hbat : ¬(st0.batteryKWh
        - calculate_energy_kwh (dist st0.currentLocation (toString z.binId))
            st0.cumCollectedWeightKg < MIN_BATTERY_KWH))
    (hcap : st0.cumCollectedWeightKg + z.estimatedWeightKg > MAX_LOAD_KG) :
    confirm_zone dist s tid zid
      = (.capacityExceeded (st0.cumCollectedWeightKg + z.estimatedWeightKg)
          MAX_LOAD_KG,
         { s with truckState := (setTS s.truckState tid
             { st0 with
               cumDistanceKm := st0.cumDistanceKm
                 + dist st0.currentLocation (toString z.binId)
               cumEnergyKWh := st0.cumEnergyKWh
                 + calculate_energy_kwh (dist st0.currentLocation (toString z.binId))
                     st0.cumCollectedWeightKg
               batteryKWh := st0.batteryKWh
                 - calculate_energy_kwh (dist st0.currentLocation (toString z.binId))
                     st0.cumCollectedWeightKg
               cumCollectedWeightKg := st0.cumCollectedWeightKg + z.estimatedWeightKg
               status := "CAPACITY_RETURN" }) }) := by
  have hid : z.id = zid := find_zone_id hz
  simp only [confirm_zone, init_noop_of_lookup hst, hroute, hz, hst,
    Option.getD_some, hown, hpend, hexp, hid, bne_self_eq_false,
    Bool.false_eq_true, if_false]
  rw [if_neg hbat]
  rw [if_pos hcap]

/-- C1 (amended): when the capacity check fires, the operation rejects with
the capacity error but the weight increment IS committed along with the
travel side effects: afterwards the twin's `cumCollectedWeightKg` equals
the old value plus the zone's estimated weight, which strictly exceeds
`MAX_LOAD_KG` (zones and routes themselves are untouched).  The original
claim's "the weight increment is not committed ... `cumCollectedWeightKg`
never exceeds `MAX_LOAD_KG`" is false on the code. -/
theorem C1_capacity_commit (dist : String → String → ℚ)
    (s : ServerState) (tid zid : Int) (st0 : TruckState) (route : Route)
    (z : Zone)
    (hroute : get_route_for_truck s tid = some route)
    (hst : lookupTS s.truckState tid = some st0)
    (hz : s.zones.find? (fun z' => z'.id == zid) = some z)
    (hown : z.truckId = tid)
    (hpend : z.status = "Pending")
    (hexp : next_pending_zone_for_truck s tid = some z)
    (hbat : ¬(st0.batteryKWh
        - calculate_energy_kwh (dist st0.currentLocation (toString z.binId))
            st0.cumCollectedWeightKg < MIN_BATTERY_KWH))
    (hcap : st0.cumCollectedWeightKg + z.estimatedWeightKg > MAX_LOAD_KG) :
    ∃ s', confirm_zone dist s tid zid
          = (.capacityExceeded (st0.cumCollectedWeightKg + z.estimatedWeightKg)
              MAX_LOAD_KG, s')
        ∧ s'.zones = s.zones
        ∧ s'.routes = s.routes
        ∧ (lookupTS s'.truckState tid).map (fun st => st.cumCollectedWeightKg)
            = some (st0.cumCollectedWeightKg + z.estimatedWeightKg)
        ∧ MAX_LOAD_KG < st0.cumCollectedWeightKg + z.estimatedWeightKg := by
  refine ⟨_, confirm_zone_capacity_path dist s tid zid st0 route z hroute hst
    hz hown hpend hexp hbat hcap, rfl, rfl, ?_, hcap⟩
  rw [lookupTS_setTS_self]
  rfl

/-- C1 counterexample: on a one-truck state whose only zone weighs 6000 kg
(with zero travel distances), the confirmation is rejected for capacity yet
the twin's `cumCollectedWeightKg` afterwards is `0 + 6000`, a change, and
it exceeds `MAX_LOAD_KG = 5000`. -/
theorem C1_counterexample :
    ∃ s', confirm_zone wDist0 cxState 5 501
          = (.capacityExceeded
              ((defaultTruckState 5).cumCollectedWeightKg + 6000)
              MAX_LOAD_KG, s')
        ∧ (lookupTS s'.truckState 5).map (fun st => st.cumCollectedWeightKg)
            = some ((defaultTruckState 5).cumCollectedWeightKg + 6000)
        ∧ (defaultTruckState 5).cumCollectedWeightKg + 6000
            ≠ (defaultTruckState 5).cumCollectedWeightKg
        ∧ MAX_LOAD_KG
            < (defaultTruckState 5).cumCollectedWeightKg + 6000 := by
  have h := confirm_zone_capacity_path wDist0 cxState 5 501
    (defaultTruckState 5)
    { truckId := 5, nodeSequence := ["Parking", "7", "Parking"]
      totalDistanceKm := 0, totalEnergyKWh := 0
      totalCollectedWeightKg := 6000, status := "Pending" }
    { id := 501, truckId := 5, zone := "Zone X1", binId := 7
      fillLevelPercent := 100, estimatedWeightKg := 6000, status := "Pending" }
    rfl rfl rfl rfl rfl (by decide)
    (by norm_num [defaultTruckState, wDist0, calculate_energy_kwh,
      ALPHA_KWH_PER_KM, BETA_KWH_PER_KG_KM, MIN_BATTERY_KWH, MAX_BATTERY_KWH])
    (by norm_num [defaultTruckState, MAX_LOAD_KG])
  refine ⟨_, h, ?_, by norm_num [defaultTruckState],
    by norm_num [defaultTruckState, MAX_LOAD_KG]⟩
  rw [lookupTS_setTS_self]
  rfl

/-- C1 witness: the amended theorem applied to the oversized-zone state. -/
theorem C1_capacity_commit_witness :
    ∃ s', confirm_zone wDist0 cxState 5 501
          = (.capacityExceeded
              ((defaultTruckState 5).cumCollectedWeightKg + 6000)
              MAX_LOAD_KG, s')
        ∧ s'.zones = cxState.zones
        ∧ s'.routes = cxState.routes
        ∧ (lookupTS s'.truckState 5).map (fun st => st.cumCollectedWeightKg)
            = some ((defaultTruckState 5).cumCollectedWeightKg + 6000)
        ∧ MAX_LOAD_KG
            < (defaultTruckState 5).cumCollectedWeightKg + 6000 :=
  C1_capacity_commit wDist0 cxState 5 501 (defaultTruckState 5)
    { truckId := 5, nodeSequence := ["Parking", "7", "Parking"]
      totalDistanceKm := 0, totalEnergyKWh := 0
      totalCollectedWeightKg := 6000, status := "Pending" }
    { id := 501, truckId := 5, zone := "Zone X1", binId := 7
      fillLevelPercent := 100, estimatedWeightKg := 6000, status := "Pending" }
    rfl rfl rfl rfl rfl (by decide)
    (by norm_num [defaultTruckState, wDist0, calculate_energy_kwh,
      ALPHA_KWH_PER_KM, BETA_KWH_PER_KG_KM, MIN_BATTERY_KWH, MAX_BATTERY_KWH])
    (by norm_num [defaultTruckState, MAX_LOAD_KG])

/-- C10: frame of a capacity rejection — the zone stays Pending (the zone
list is untouched, and it is still the truck's next-pending zone), the
route list is untouched, the twin keeps its `currentLocation` and its old
KPI fields (`fillRatio`, `efficiencyKWhPerKg`, `rangeLeftKm` are NOT
recomputed, hence stale w.r.t. the updated cumulative fields), while its
status becomes `CAPACITY_RETURN` and the cumulative fields plus battery
reflect the travel and the committed weight. -/
theorem C10_capacity_frame (dist : String → String → ℚ)
    (s : ServerState) (tid zid : Int) (st0 : TruckState) (route : Route)
    (z : Zone)
    (hroute : get_route_for_truck s tid = some route)
    (hst : lookupTS s.truckState tid = some st0)
    (hz : s.zones.find? (fun z' => z'.id == zid) = some z)
    (hown : z.truckId = tid)
    (hpend : z.status = "Pending")
    (hexp : next_pending_zone_for_truck s tid = some z)
    (hbat : ¬(st0.batteryKWh
        - calculate_energy_kwh (dist st0.currentLocation (toString z.binId))
            st0.cumCollectedWeightKg < MIN_BATTERY_KWH))
    (hcap : st0.cumCollectedWeightKg + z.estimatedWeightKg > MAX_LOAD_KG) :
    ∃ s' st', confirm_zone dist s tid zid
          = (.capacityExceeded (st0.cumCollectedWeightKg + z.estimatedWeightKg)
              MAX_LOAD_KG, s')
        ∧ s'.zones = s.zones
        ∧ s'.routes = s.routes
        ∧ next_pending_zone_for_truck s' tid = some z
        ∧ lookupTS s'.truckState tid = some st'
        ∧ st'.currentLocation = st0.currentLocation
        ∧ st'.status = "CAPACITY_RETURN"
        ∧ st'.fillRatio = st0.fillRatio
        ∧ st'.efficiencyKWhPerKg = st0.efficiencyKWhPerKg
        ∧ st'.rangeLeftKm = st0.rangeLeftKm
        ∧ st'.cumDistanceKm = st0.cumDistanceKm
            + dist st0.currentLocation (toString z.binId)
        ∧ st'.cumEnergyKWh = st0.cumEnergyKWh
            + calculate_energy_kwh (dist st0.currentLocation (toString z.binId))
                st0.cumCollectedWeightKg
        ∧ st'.batteryKWh = st0.batteryKWh
            - calculate_energy_kwh (dist st0.currentLocation (toString z.binId))
                st0.cumCollectedWeightKg
        ∧ st'.cumCollectedWeightKg
            = st0.cumCollectedWeightKg + z.estimatedWeightKg := by
  refine ⟨_, _, confirm_zone_capacity_path dist s tid zid st0 route z hroute
    hst hz hown hpend hexp hbat hcap, rfl, rfl, ?_, lookupTS_setTS_self _ _ _,
    rfl, rfl, rfl, rfl, rfl, rfl, rfl, rfl, rfl⟩
  exact hexp

/-- C10 witness: the frame theorem applied to the oversized-zone state. -/
theorem C10_capacity_frame_witness :
    ∃ s' st', confirm_zone wDist0 cxState 5 501
          = (.capacityExceeded
              ((defaultTruckState 5).cumCollectedWeightKg + 6000)
              MAX_LOAD_KG, s')
        ∧ s'.zones = cxState.zones
        ∧ s'.routes = cxState.routes
        ∧ next_pending_zone_for_truck s' 5
            = some { id := 501, truckId := 5, zone := "Zone X1", binId := 7
                     fillLevelPercent := 100, estimatedWeightKg := 6000
                     status := "Pending" }
        ∧ lookupTS s'.truckState 5 = some st'
        ∧ st'.currentLocation = (defaultTruckState 5).currentLocation
        ∧ st'.status = "CAPACITY_RETURN"
        ∧ st'.fillRatio = (defaultTruckState 5).fillRatio
        ∧ st'.efficiencyKWhPerKg = (defaultTruckState 5).efficiencyKWhPerKg
        ∧ st'.rangeLeftKm = (defaultTruckState 5).rangeLeftKm
        ∧ st'.cumDistanceKm = (defaultTruckState 5).cumDistanceKm
            + wDist0 (defaultTruckState 5).currentLocation (toString (7 : Int))
        ∧ st'.cumEnergyKWh = (defaultTruckState 5).cumEnergyKWh
            + calculate_energy_kwh
                (wDist0 (defaultTruckState 5).currentLocation (toString (7 : Int)))
                (defaultTruckState 5).cumCollectedWeightKg
        ∧ st'.batteryKWh = (defaultTruckState 5).batteryKWh
            - calculate_energy_kwh
                (wDist0 (defaultTruckState 5).currentLocation (toString (7 : Int)))
                (defaultTruckState 5).cumCollectedWeightKg
        ∧ st'.cumCollectedWeightKg
            = (defaultTruckState 5).cumCollectedWeightKg + 6000 :=
  C10_capacity_frame wDist0 cxState 5 501 (defaultTruckState 5)
    { truckId := 5, nodeSequence := ["Parking", "7", "Parking"]
      totalDistanceKm := 0, totalEnergyKWh := 0
      totalCollectedWeightKg := 6000, status := "Pending" }
    { id := 501, truckId := 5, zone := "Zone X1", binId := 7
      fillLevelPercent := 100, estimatedWeightKg := 6000, status := "Pending" }
    rfl rfl rfl rfl rfl (by decide)
    (by norm_num [defaultTruckState, wDist0, calculate_energy_kwh,
      ALPHA_KWH_PER_KM, BETA_KWH_PER_KG_KM, MIN_BATTERY_KWH, MAX_BATTERY_KWH])
    (by norm_num [defaultTruckState, MAX_LOAD_KG])

/-! ### C7 — battery emergency during full-route simulation -/

/-- The walk's battery check: when the prospective segment would drop the
battery below the floor, the walk stops at once with a terminal
`BATTERY_EMERGENCY_RETURN` entry, the segment not charged. -/
theorem simWalkAux_emergency (dist : String → String → ℚ) (tid : Int)
    (stepIdx : Nat) (src dst : String) (rest : List String)
    (s : ServerState) (st : TruckState) (tl : List TimelineEntry)
    (h : st.batteryKWh - calculate_energy_kwh (dist src dst)
        st.cumCollectedWeightKg < MIN_BATTERY_KWH) :
    simWalkAux dist tid stepIdx (src :: dst :: rest) s st tl
      = (s, { st with status := "EMERGENCY_RETURN" },
         tl ++ [{ truckId := tid, step := stepIdx, src := src, dst := dst
                  distanceKm := dist src dst
                  energyKWh := calculate_energy_kwh (dist src dst)
                    st.cumCollectedWeightKg
                  event := "BATTERY_EMERGENCY_RETURN"
                  batteryKWhBefore := st.batteryKWh
                  batteryKWhAfter := st.batteryKWh
                  loadKg := st.cumCollectedWeightKg
                  fillRatio := none, efficiencyKWhPerKg := none
                  rangeLeftKm := none, zoneId := none, binId := none }]) := by
  rw [simWalkAux]
  rw [if_pos h]

/-- C7: (a) at any point of the walk, a prospective segment whose energy
would drop `batteryKWh` below `MIN_BATTERY_KWH` makes the walk record a
terminal `BATTERY_EMERGENCY_RETURN` entry with
`batteryKWhBefore = batteryKWhAfter` (the refused segment is not charged),
set the twin's status to `EMERGENCY_RETURN` and stop (the store and the
remaining nodes are not touched); and (b) at top level no error is raised:
when the violation hits the first segment the call still returns the `ok`
result whose payload is the truncated one-entry timeline plus the final
`EMERGENCY_RETURN` state. -/
theorem C7_sim_emergency (dist : String → String → ℚ) (tid : Int) :
    (∀ (stepIdx : Nat) (src dst : String) (rest : List String)
        (s : ServerState) (st : TruckState) (tl : List TimelineEntry),
      st.batteryKWh - calculate_energy_kwh (dist src dst)
          st.cumCollectedWeightKg < MIN_BATTERY_KWH
        → simWalkAux dist tid stepIdx (src :: dst :: rest) s st tl
            = (s, { st with status := "EMERGENCY_RETURN" },
               tl ++ [{ truckId := tid, step := stepIdx, src := src, dst := dst
                        distanceKm := dist src dst
                        energyKWh := calculate_energy_kwh (dist src dst)
                          st.cumCollectedWeightKg
                        event := "BATTERY_EMERGENCY_RETURN"
                        batteryKWhBefore := st.batteryKWh
                        batteryKWhAfter := st.batteryKWh
                        loadKg := st.cumCollectedWeightKg
                        fillRatio := none, efficiencyKWhPerKg := none
                        rangeLeftKm := none, zoneId := none, binId := none }]))
      ∧ (∀ (s : ServerState) (st0 : TruckState) (route : Route)
            (n1 : String) (rest : List String),
          get_route_for_truck s tid = some route
            → lookupTS s.truckState tid = some st0
            → route.nodeSequence = DEPOT_NAME :: n1 :: rest
            → (DEPOT_NAME :: n1 :: rest).getLast? = some DEPOT_NAME
            → st0.batteryKWh - calculate_energy_kwh (dist DEPOT_NAME n1)
                st0.cumCollectedWeightKg < MIN_BATTERY_KWH
            → (simulate_truck_full_route dist s tid false).1.isOk = true
              ∧ (simulate_truck_full_route dist s tid false).1.timelineOf
                  = [{ truckId := tid, step := 0, src := DEPOT_NAME, dst := n1
                       distanceKm := dist DEPOT_NAME n1
                       energyKWh := calculate_energy_kwh (dist DEPOT_NAME n1)
                         st0.cumCollectedWeightKg
                       event := "BATTERY_EMERGENCY_RETURN"
                       batteryKWhBefore := st0.batteryKWh
                       batteryKWhAfter := st0.batteryKWh
                       loadKg := st0.cumCollectedWeightKg
                       fillRatio := none, efficiencyKWhPerKg := none
                       rangeLeftKm := none, zoneId := none, binId := none }]
              ∧ ((simulate_truck_full_route dist s tid false).1.finalStateOf).map
                    (fun st => st.status) = some "EMERGENCY_RETURN"
              ∧ ((simulate_truck_full_route dist s tid false).1.finalStateOf).map
                    (fun st => st.batteryKWh) = some st0.batteryKWh) := by
  constructor
  · intro stepIdx src dst rest s st tl h
    exact simWalkAux_emergency dist tid stepIdx src dst rest s st tl h
  · intro s st0 route n1 rest hroute hst hseq hlast hemg
    have hemg' :
        (update_kpis
            { st0 with currentLocation := DEPOT_NAME, status := "COLLECTING" }).batteryKWh
          - calculate_energy_kwh (dist DEPOT_NAME n1)
              (update_kpis
                { st0 with currentLocation := DEPOT_NAME, status := "COLLECTING" }).cumCollectedWeightKg
          < MIN_BATTERY_KWH := by
      simpa [update_kpis] using hemg
    simp only [simulate_truck_full_route, init_noop_of_lookup hst, hroute, hst,
      Option.getD_some, hseq, List.isEmpty_cons, List.head?_cons, hlast,
      bne_self_eq_false, Bool.or_self, Bool.or_false, Bool.false_or,
      Bool.false_eq_true, if_false]
    rw [simWalkAux_emergency dist tid 0 DEPOT_NAME n1 rest _ _ _ hemg']
    simp [SimResult.isOk, SimResult.timelineOf, SimResult.finalStateOf,
      update_kpis]

/-- Fixture: a truck (id 6) with a drained battery (20.5 kWh) and a short
route, used to exercise the emergency-return path. -/
def emState : ServerState :=
  { routes := [{ truckId := 6, nodeSequence := ["Parking", "9", "Parking"]
                 totalDistanceKm := 0, totalEnergyKWh := 0
                 totalCollectedWeightKg := 0, status := "Pending" }]
    zones := []
    truckState := [(6, { defaultTruckState 6 with batteryKWh := 41 / 2 })] }

/-- C7 witness: with 20.5 kWh left and a unit-distance first segment
(0.86 kWh), the walk halts with the terminal emergency entry and the
simulation still returns an `ok` result. -/
theorem C7_sim_emergency_witness :
    (simulate_truck_full_route wDist emState 6 false).1.isOk = true
      ∧ (simulate_truck_full_route wDist emState 6 false).1.timelineOf
          = [{ truckId := 6, step := 0, src := DEPOT_NAME, dst := "9"
               distanceKm := wDist DEPOT_NAME "9"
               energyKWh := calculate_energy_kwh (wDist DEPOT_NAME "9")
                 ({ defaultTruckState 6 with
                    batteryKWh := 41 / 2 } : TruckState).cumCollectedWeightKg
               event := "BATTERY_EMERGENCY_RETURN"
               batteryKWhBefore := ({ defaultTruckState 6 with
                 batteryKWh := 41 / 2 } : TruckState).batteryKWh
               batteryKWhAfter := ({ defaultTruckState 6 with
                 batteryKWh := 41 / 2 } : TruckState).batteryKWh
               loadKg := ({ defaultTruckState 6 with
                 batteryKWh := 41 / 2 } : TruckState).cumCollectedWeightKg
               fillRatio := none, efficiencyKWhPerKg := none
               rangeLeftKm := none, zoneId := none, binId := none }]
      ∧ ((simulate_truck_full_route wDist emState 6 false).1.finalStateOf).map
            (fun st => st.status) = some "EMERGENCY_RETURN"
      ∧ ((simulate_truck_full_route wDist emState 6 false).1.finalStateOf).map
            (fun st => st.batteryKWh)
          = some ({ defaultTruckState 6 with
              batteryKWh := 41 / 2 } : TruckState).batteryKWh :=
  (C7_sim_emergency wDist 6).2 emState
    { defaultTruckState 6 with batteryKWh := 41 / 2 }
    { truckId := 6, nodeSequence := ["Parking", "9", "Parking"]
      totalDistanceKm := 0, totalEnergyKWh := 0
      totalCollectedWeightKg := 0, status := "Pending" }
    "9" ["Parking"] rfl rfl rfl rfl
    (by norm_num [defaultTruckState, wDist, calculate_energy_kwh,
      ALPHA_KWH_PER_KM, BETA_KWH_PER_KG_KM, MIN_BATTERY_KWH, MAX_BATTERY_KWH])

/-! ### C5 — what state a full-route simulation starts from -/

/-- The walk only appends to the accumulated timeline. -/
theorem simWalkAux_timeline_prefix (dist : String → String → ℚ) (tid : Int) :
    ∀ (nodes : List String) (stepIdx : Nat) (s : ServerState)
      (st : TruckState) (tl : List TimelineEntry),
      ∃ add, (simWalkAux dist tid stepIdx nodes s st tl).2.2 = tl ++ add := by
  intro nodes
  induction nodes with
  | nil => exact fun stepIdx s st tl => ⟨[], by simp [simWalkAux]⟩
  | cons src rest ih =>
      cases rest with
      | nil => exact fun stepIdx s st tl => ⟨[], by simp [simWalkAux]⟩
      | cons dst rest' =>
          intro stepIdx s st tl
          rw [simWalkAux]
          dsimp only
          split
          · exact ⟨_, rfl⟩
          · split
            · split
              · exact ⟨_, rfl⟩
              · obtain ⟨add, hadd⟩ := ih (stepIdx + 1) _ _ _
                rw [hadd, List.append_assoc]
                exact ⟨_, rfl⟩
            · obtain ⟨add, hadd⟩ := ih (stepIdx + 1) _ _ _
              rw [hadd, List.append_assoc]
              exact ⟨_, rfl⟩

/-- Started with an empty timeline, a walk with at least one segment
emits a first entry whose `batteryKWhBefore` is the starting twin's
battery. -/
theorem simWalkAux_head_battery (dist : String → String → ℚ) (tid : Int)
    (stepIdx : Nat) (src dst : String) (rest : List String)
    (s : ServerState) (st : TruckState) :
    (((simWalkAux dist tid stepIdx (src :: dst :: rest) s st []).2.2).head?).map
        (fun e => e.batteryKWhBefore) = some st.batteryKWh := by
  rw [simWalkAux]
  dsimp only
  split
  · simp
  · repeat' split
    all_goals
      first
        | (obtain ⟨add, hadd⟩ := simWalkAux_timeline_prefix dist tid
             (dst :: rest) (stepIdx + 1) _ _ _
           rw [hadd]
           simp)
        | simp

/-- After depot validation, a walk with at least one segment returns `ok`
and its first timeline entry's `batteryKWhBefore` is the twin's battery AS
IT WAS BEFORE THE CALL (the walk does not reset it). -/
theorem sim_first_entry_battery (dist : String → String → ℚ)
    (s : ServerState) (tid : Int) (st0 : TruckState) (route : Route)
    (n1 : String) (rest : List String)
    (hroute : get_route_for_truck s tid = some route)
    (hst : lookupTS s.truckState tid = some st0)
    (hseq : route.nodeSequence = DEPOT_NAME :: n1 :: rest)
    (hlast : (DEPOT_NAME :: n1 :: rest).getLast? = some DEPOT_NAME) :
    (simulate_truck_full_route dist s tid false).1.isOk = true
      ∧ ((simulate_truck_full_route dist s tid false).1.timelineOf.head?).map
          (fun e => e.batteryKWhBefore) = some st0.batteryKWh := by
  simp only [simulate_truck_full_route, init_noop_of_lookup hst, hroute, hst,
    Option.getD_some, hseq, List.isEmpty_cons, List.head?_cons, hlast,
    bne_self_eq_false, Bool.or_self, Bool.or_false, Bool.false_or,
    Bool.false_eq_true, if_false]
  refine ⟨rfl, ?_⟩
  simp only [SimResult.timelineOf]
  have h := simWalkAux_head_battery dist tid 0 DEPOT_NAME n1 rest s
    (update_kpis { st0 with currentLocation := DEPOT_NAME, status := "COLLECTING" })
  simpa [update_kpis] using h

/-- C5 (amended): a full-route simulation (as invoked by the endpoint,
`reset=False`) first fails when the route's nodeSequence does not start and
end with the depot; otherwise the walk starts from the EXISTING twin —
battery and cumulative metrics carry over from before the call — and only
a truck whose twin does not exist yet starts from the freshly-initialized
full-battery state.  The original "re-initialized ... regardless of the
twin's state before the call" is false on the code. -/
theorem C5_sim_start (dist : String → String → ℚ) (s : ServerState)
    (tid : Int) (route : Route)
    (hroute : get_route_for_truck s tid = some route) :
    (route.nodeSequence.isEmpty = true
        ∨ route.nodeSequence.head? ≠ some DEPOT_NAME
        ∨ route.nodeSequence.getLast? ≠ some DEPOT_NAME
      → simulate_truck_full_route dist s tid false
          = (.badDepot, init_truck_state_if_needed s tid false))
      ∧ (∀ (st0 : TruckState) (n1 : String) (rest : List String),
          lookupTS s.truckState tid = some st0
            → route.nodeSequence = DEPOT_NAME :: n1 :: rest
            → (DEPOT_NAME :: n1 :: rest).getLast? = some DEPOT_NAME
            → (simulate_truck_full_route dist s tid false).1.isOk = true
              ∧ ((simulate_truck_full_route dist s tid false).1.timelineOf.head?).map
                  (fun e => e.batteryKWhBefore) = some st0.batteryKWh)
      ∧ (∀ (n1 : String) (rest : List String),
          lookupTS s.truckState tid = none
            → route.nodeSequence = DEPOT_NAME :: n1 :: rest
            → (DEPOT_NAME :: n1 :: rest).getLast? = some DEPOT_NAME
            → ((simulate_truck_full_route dist s tid false).1.timelineOf.head?).map
                (fun e => e.batteryKWhBefore) = some MAX_BATTERY_KWH) := by
  have hroutesInit : (init_truck_state_if_needed s tid false).routes = s.routes := by
    unfold init_truck_state_if_needed
    split <;> rfl
  have hrouteInit : get_route_for_truck (init_truck_state_if_needed s tid false) tid
      = some route := by
    unfold get_route_for_truck
    rw [hroutesInit]
    exact hroute
  refine ⟨?_, ?_, ?_⟩
  · intro hbad
    have hcond : (route.nodeSequence.isEmpty
        || route.nodeSequence.head? != some DEPOT_NAME
        || route.nodeSequence.getLast? != some DEPOT_NAME) = true := by
      rcases hbad with h | h | h
      · simp [h]
      · simp [bne_iff_ne, h]
      · simp [bne_iff_ne, h]
    simp only [simulate_truck_full_route, hrouteInit, hcond, if_true]
  · intro st0 n1 rest hst hseq hlast
    exact sim_first_entry_battery dist s tid st0 route n1 rest hroute hst
      hseq hlast
  · intro n1 rest hnone hseq hlast
    have hinitEq : init_truck_state_if_needed s tid false
        = { s with truckState := setTS s.truckState tid (defaultTruckState tid) } := by
      simp [init_truck_state_if_needed, hnone, Option.isNone]
    have hlookupI : lookupTS
        ({ s with truckState := setTS s.truckState tid (defaultTruckState tid) }
          : ServerState).truckState tid
        = some (defaultTruckState tid) := lookupTS_setTS_self _ _ _
    have hrouteI : get_route_for_truck
        { s with truckState := setTS s.truckState tid (defaultTruckState tid) } tid
        = some route := hroute
    have hstep : simulate_truck_full_route dist s tid false
        = simulate_truck_full_route dist
            { s with truckState := setTS s.truckState tid (defaultTruckState tid) }
            tid false := by
      simp only [simulate_truck_full_route, hinitEq,
        init_noop_of_lookup hlookupI]
    rw [hstep]
    exact (sim_first_entry_battery dist _ tid (defaultTruckState tid) route n1
      rest hrouteI hlookupI hseq hlast).2

/-- Fixture: a truck (id 8) with a dirty twin (battery 50 kWh, 7 km
travelled) and a degenerate single-node route. -/
def c5State : ServerState :=
  { routes := [{ truckId := 8, nodeSequence := ["Parking"]
                 totalDistanceKm := 0, totalEnergyKWh := 0
                 totalCollectedWeightKg := 0, status := "Pending" }]
    zones := []
    truckState := [(8, { defaultTruckState 8 with
      batteryKWh := 50, cumDistanceKm := 7 })] }

/-- C5 counterexample: through the `/simulate` endpoint (no reset), a twin
with battery 50 kWh and 7 km on the clock keeps those values through the
walk — the twin is NOT re-initialized to full battery and zero cumulative
distance. -/
theorem C5_counterexample :
    ∃ out s', simulate_endpoint wDist0 c5State false (some 8)
          = (Sum.inl out, s')
        ∧ (out.finalStateOf).map (fun st => st.batteryKWh) = some 50
        ∧ (out.finalStateOf).map (fun st => st.cumDistanceKm) = some 7
        ∧ (50 : ℚ) ≠ MAX_BATTERY_KWH
        ∧ (7 : ℚ) ≠ 0 := by
  refine ⟨_, _, rfl, rfl, rfl, by norm_num [MAX_BATTERY_KWH], by norm_num⟩

/-- C5 witness: the amended theorem applied to truck 1 of the initial data
(twin present, default battery). -/
theorem C5_sim_start_witness :
    (simulate_truck_full_route wDist wState 1 false).1.isOk = true
      ∧ ((simulate_truck_full_route wDist wState 1 false).1.timelineOf.head?).map
          (fun e => e.batteryKWhBefore) = some (defaultTruckState 1).batteryKWh :=
  (C5_sim_start wDist wState 1
    { truckId := 1
      nodeSequence := ["Parking", "61", "31", "12", "18", "Parking"]
      totalDistanceKm := 184 / 10, totalEnergyKWh := 202 / 10
      totalCollectedWeightKg := 140, status := "Pending" } rfl).2.1
    (defaultTruckState 1) "61" ["31", "12", "18", "Parking"] rfl rfl rfl

/-! ### C8 — reset round-trip and idempotence -/

/-- C8: for any state whose routes and zones carry the static configuration
(arbitrary statuses — the only fields prior operations can change — and an
arbitrary twin store), `reset()` rebuilds exactly the canonical state:
reset is a constant of the configuration, hence idempotent, and reading the
routes/zones/truck-state projections after a reset gives the same output as
reading them from the freshly-initialized engine state; afterwards all
zones and routes are Pending and every route's truck has the default twin
(depot, full battery, zero cumulative metrics). -/
theorem C8_reset (s : ServerState)
    (hypR : s.routes.map (fun r => { r with status := "Pending" })
        = initialRoutes)
    (hypZ : s.zones.map (fun z => { z with status := "Pending" })
        = initialZones) :
    reset_all_states s = reset_all_states initialState
      ∧ reset_all_states (reset_all_states s) = reset_all_states s
      ∧ (get_routes_view (reset_all_states s)).1
          = (get_routes_view initialState).1
      ∧ get_zones_view (reset_all_states s) none
          = get_zones_view initialState none
      ∧ (get_truck_state_view (reset_all_states s) none).1
          = (get_truck_state_view initialState none).1
      ∧ (∀ z ∈ (reset_all_states s).zones, z.status = "Pending")
      ∧ (∀ r ∈ (reset_all_states s).routes, r.status = "Pending")
      ∧ (∀ r ∈ (reset_all_states s).routes,
          lookupTS (reset_all_states s).truckState r.truckId
            = some (defaultTruckState r.truckId)) := by
  have hR : reset_all_states s
      = { routes := initialRoutes, zones := initialZones
          truckState := [(1, defaultTruckState 1), (2, defaultTruckState 2),
            (3, defaultTruckState 3)] } := by
    simp only [reset_all_states, hypR, hypZ]
    rfl
  refine ⟨by rw [hR]; rfl, by rw [hR]; rfl, by rw [hR]; rfl, by rw [hR]; rfl,
    by rw [hR]; rfl, ?_, ?_, ?_⟩
  · rw [hR]
    intro z hz
    simp only [initialZones, List.mem_cons, List.not_mem_nil, or_false] at hz
    rcases hz with rfl | rfl | rfl | rfl | rfl | rfl | rfl | rfl | rfl | rfl | rfl
      <;> rfl
  · rw [hR]
    intro r hr
    simp only [initialRoutes, List.mem_cons, List.not_mem_nil, or_false] at hr
    rcases hr with rfl | rfl | rfl <;> rfl
  · rw [hR]
    intro r hr
    simp only [initialRoutes, List.mem_cons, List.not_mem_nil, or_false] at hr
    rcases hr with rfl | rfl | rfl <;> rfl

/-- C8 witness: reset applied twice to the initial state equals reset
applied once, and the reset projections match the fresh reads. -/
theorem C8_reset_witness :
    reset_all_states (reset_all_states initialState)
        = reset_all_states initialState
      ∧ (get_routes_view (reset_all_states initialState)).1
          = (get_routes_view initialState).1
      ∧ get_zones_view (reset_all_states initialState) none
          = get_zones_view initialState none
      ∧ (get_truck_state_view (reset_all_states initialState) none).1
          = (get_truck_state_view initialState none).1 :=
  ⟨(C8_reset initialState rfl rfl).2.1,
   (C8_reset initialState rfl rfl).2.2.1,
   (C8_reset initialState rfl rfl).2.2.2.1,
   (C8_reset initialState rfl rfl).2.2.2.2.1⟩

/-! ### C9 — per-truck independence of the fleet walk

The frame relations below say two states agree except possibly in the
mutable data owned by one truck `T`: statuses of `T`'s zones, the status of
`T`'s routes, and `T`'s twin.  The walk for a truck `t` only writes inside
its own frame and reads nothing outside it, which yields commutation. -/

/-- `zs'` agrees with `zs` except possibly in statuses of zones owned by
`T`. -/
def ZoneFrame (T : Int) (zs zs' : List Zone) : Prop :=
  List.Forall₂ (fun z z' =>
    z.id = z'.id ∧ z.truckId = z'.truckId ∧ z.zone = z'.zone
      ∧ z.binId = z'.binId ∧ z.fillLevelPercent = z'.fillLevelPercent
      ∧ z.estimatedWeightKg = z'.estimatedWeightKg
      ∧ (z.truckId ≠ T → z.status = z'.status)) zs zs'

/-- `rs'` agrees with `rs` except possibly in statuses of routes owned by
`T`. -/
def RouteFrame (T : Int) (rs rs' : List Route) : Prop :=
  List.Forall₂ (fun r r' =>
    r.truckId = r'.truckId ∧ r.nodeSequence = r'.nodeSequence
      ∧ r.totalDistanceKm = r'.totalDistanceKm
      ∧ r.totalEnergyKWh = r'.totalEnergyKWh
      ∧ r.totalCollectedWeightKg = r'.totalCollectedWeightKg
      ∧ (r.truckId ≠ T → r.status = r'.status)) rs rs'

/-- `ts'` agrees with `ts` on every twin other than `T`'s. -/
def TSFrame (T : Int) (ts ts' : List (Int × TruckState)) : Prop :=
  ∀ k, k ≠ T → lookupTS ts k = lookupTS ts' k

/-- Two states agree outside the mutable data owned by `T`. -/
def StateFrame (T : Int) (s s' : ServerState) : Prop :=
  RouteFrame T s.routes s'.routes ∧ ZoneFrame T s.zones s'.zones
    ∧ TSFrame T s.truckState s'.truckState

theorem zoneFrame_refl (T : Int) (zs : List Zone) : ZoneFrame T zs zs := by
  unfold ZoneFrame
  rw [List.forall₂_same]
  exact fun x _ => ⟨rfl, rfl, rfl, rfl, rfl, rfl, fun _ => rfl⟩

theorem routeFrame_refl (T : Int) (rs : List Route) : RouteFrame T rs rs := by
  unfold RouteFrame
  rw [List.forall₂_same]
  exact fun x _ => ⟨rfl, rfl, rfl, rfl, rfl, fun _ => rfl⟩

theorem stateFrame_refl (T : Int) (s : ServerState) : StateFrame T s s :=
  ⟨routeFrame_refl T s.routes, zoneFrame_refl T s.zones, fun _ _ => rfl⟩

theorem zoneFrame_trans {T : Int} {a b c : List Zone}
    (hab : ZoneFrame T a b) (hbc : ZoneFrame T b c) : ZoneFrame T a c := by
  induction hab generalizing c with
  | nil => cases hbc; exact List.Forall₂.nil
  | cons hrel _ ih =>
      cases hbc with
      | cons hrel2 hrest2 =>
          refine List.Forall₂.cons ?_ (ih hrest2)
          obtain ⟨h1, h2, h3, h4, h5, h6, h7⟩ := hrel
          obtain ⟨g1, g2, g3, g4, g5, g6, g7⟩ := hrel2
          exact ⟨h1.trans g1, h2.trans g2, h3.trans g3, h4.trans g4,
            h5.trans g5, h6.trans g6,
            fun hne => (h7 hne).trans (g7 (h2 ▸ hne))⟩

theorem routeFrame_trans {T : Int} {a b c : List Route}
    (hab : RouteFrame T a b) (hbc : RouteFrame T b c) : RouteFrame T a c := by
  induction hab generalizing c with
  | nil => cases hbc; exact List.Forall₂.nil
  | cons hrel _ ih =>
      cases hbc with
      | cons hrel2 hrest2 =>
          refine List.Forall₂.cons ?_ (ih hrest2)
          obtain ⟨h1, h2, h3, h4, h5, h6⟩ := hrel
          obtain ⟨g1, g2, g3, g4, g5, g6⟩ := hrel2
          exact ⟨h1.trans g1, h2.trans g2, h3.trans g3, h4.trans g4,
            h5.trans g5, fun hne => (h6 hne).trans (g6 (h1 ▸ hne))⟩

theorem stateFrame_trans {T : Int} {a b c : ServerState}
    (hab : StateFrame T a b) (hbc : StateFrame T b c) : StateFrame T a c :=
  ⟨routeFrame_trans hab.1 hbc.1, zoneFrame_trans hab.2.1 hbc.2.1,
   fun k hk => (hab.2.2 k hk).trans (hbc.2.2 k hk)⟩

theorem zoneFrame_setFirstByKey_self (tid binId : Int) (st : String) :
    ∀ zs : List Zone,
      ZoneFrame tid zs (setFirstZoneStatusByKey zs tid binId st)
  | [] => List.Forall₂.nil
  | z :: rest => by
      unfold setFirstZoneStatusByKey
      split
      · rename_i hcond
        refine List.Forall₂.cons ?_ (zoneFrame_refl tid rest)
        have htr : z.truckId = tid := by
          have := (Bool.and_eq_true _ _).mp hcond
          simpa using this.1
        exact ⟨rfl, rfl, rfl, rfl, rfl, rfl, fun hne => absurd htr hne⟩
      · exact List.Forall₂.cons
          ⟨rfl, rfl, rfl, rfl, rfl, rfl, fun _ => rfl⟩
          (zoneFrame_setFirstByKey_self tid binId st rest)

theorem zoneFrame_setLast_self (zs : List Zone) (tid binId : Int)
    (st : String) : ZoneFrame tid zs (setLastZoneStatus zs tid binId st) := by
  unfold setLastZoneStatus
  have h := List.rel_reverse (zoneFrame_setFirstByKey_self tid binId st zs.reverse)
  rwa [List.reverse_reverse] at h

theorem routeFrame_setFirst_self (tid : Int) (st : String) :
    ∀ rs : List Route, RouteFrame tid rs (setFirstRouteStatus rs tid st)
  | [] => List.Forall₂.nil
  | r :: rest => by
      unfold setFirstRouteStatus
      split
      · rename_i hcond
        refine List.Forall₂.cons ?_ (routeFrame_refl tid rest)
        have htr : r.truckId = tid := by simpa using hcond
        exact ⟨rfl, rfl, rfl, rfl, rfl, fun hne => absurd htr hne⟩
      · exact List.Forall₂.cons ⟨rfl, rfl, rfl, rfl, rfl, fun _ => rfl⟩
          (routeFrame_setFirst_self tid st rest)

theorem tsFrame_setTS_self (ts : List (Int × TruckState)) (tid : Int)
    (v : TruckState) : TSFrame tid ts (setTS ts tid v) :=
  fun k hk => (lookupTS_setTS_ne ts tid k v hk).symm

theorem stateFrame_update_route_status_self (s : ServerState) (tid : Int) :
    StateFrame tid s (update_route_status s tid) := by
  unfold update_route_status
  split
  · exact stateFrame_refl tid s
  · exact ⟨routeFrame_setFirst_self tid _ s.routes, zoneFrame_refl tid s.zones,
      fun _ _ => rfl⟩

theorem stateFrame_init_self (s : ServerState) (tid : Int) (b : Bool) :
    StateFrame tid s (init_truck_state_if_needed s tid b) := by
  unfold init_truck_state_if_needed
  split
  · exact ⟨routeFrame_refl tid s.routes, zoneFrame_refl tid s.zones,
      tsFrame_setTS_self s.truckState tid _⟩
  · exact stateFrame_refl tid s

theorem stateFrame_setZones_setLast (s : ServerState) (tid binId : Int)
    (st : String) :
    StateFrame tid s
      { s with zones := setLastZoneStatus s.zones tid binId st } :=
  ⟨routeFrame_refl tid s.routes, zoneFrame_setLast_self s.zones tid binId st,
   fun _ _ => rfl⟩

/-- The walk writes only in its own truck's frame. -/
theorem stateFrame_simWalkAux_self (dist : String → String → ℚ) (tid : Int) :
    ∀ (nodes : List String) (stepIdx : Nat) (s : ServerState)
      (st : TruckState) (tl : List TimelineEntry),
      StateFrame tid s ((simWalkAux dist tid stepIdx nodes s st tl).1) := by
  intro nodes
  induction nodes with
  | nil => exact fun stepIdx s st tl => stateFrame_refl tid s
  | cons src rest ih =>
      cases rest with
      | nil => exact fun stepIdx s st tl => stateFrame_refl tid s
      | cons dst rest' =>
          intro stepIdx s st tl
          rw [simWalkAux]
          dsimp only
          split
          · exact stateFrame_refl tid s
          · split
            · split
              · exact stateFrame_trans (stateFrame_setZones_setLast s tid _ _)
                  (stateFrame_update_route_status_self _ tid)
              · exact stateFrame_trans
                  (stateFrame_trans (stateFrame_setZones_setLast s tid _ _)
                    (stateFrame_update_route_status_self _ tid))
                  (ih (stepIdx + 1) _ _ _)
            · exact ih (stepIdx + 1) _ _ _

/-- Post-walk bookkeeping stays inside the truck's frame. -/
theorem stateFrame_afterWalk (tid : Int) (s1 s2 : ServerState) (c : Bool)
    (h12 : StateFrame tid s1 s2) :
    StateFrame tid s1 (if c then update_route_status s2 tid else s2) := by
  split
  · exact stateFrame_trans h12 (stateFrame_update_route_status_self _ tid)
  · exact h12

/-- A full-route simulation writes only in its own truck's frame. -/
theorem stateFrame_simulate_self (dist : String → String → ℚ)
    (s : ServerState) (tid : Int) (b : Bool) :
    StateFrame tid s ((simulate_truck_full_route dist s tid b).2) := by
  rw [simulate_truck_full_route]
  dsimp only
  apply stateFrame_trans (stateFrame_init_self s tid b)
  split
  · exact stateFrame_refl tid _
  · split
    · exact stateFrame_refl tid _
    · dsimp only
      apply stateFrame_trans (stateFrame_simWalkAux_self dist tid _ _ _ _ _)
      exact stateFrame_afterWalk tid _ _ _
        ⟨routeFrame_refl tid _, zoneFrame_refl tid _,
         tsFrame_setTS_self _ tid _⟩

theorem find_route_frame_eq {T : Int} {rsa rsb : List Route}
    (h : RouteFrame T rsa rsb) (t : Int) (hne : t ≠ T) :
    rsa.find? (fun r => r.truckId == t) = rsb.find? (fun r => r.truckId == t) := by
  induction h with
  | nil => rfl
  | cons hrel hrest ih =>
      rename_i a b l1 l2
      obtain ⟨h1, h2, h3, h4, h5, h6⟩ := hrel
      by_cases hat : a.truckId = t
      · have hab : a = b := by
          have hstat : a.status = b.status := h6 (by rw [hat]; exact hne)
          cases a; cases b; simp_all
        have hbt : (b.truckId == t) = true := by rw [← h1]; simp [hat]
        rw [hab]
        simp only [List.find?, hbt]
      · have hbt : (a.truckId == t) = false := by simp [hat]
        have hbt' : (b.truckId == t) = false := by rw [← h1]; exact hbt
        simp only [List.find?, hbt, hbt']
        exact ih

theorem get_route_frame_eq {T : Int} {sa sb : ServerState}
    (h : StateFrame T sa sb) (t : Int) (hne : t ≠ T) :
    get_route_for_truck sa t = get_route_for_truck sb t :=
  find_route_frame_eq h.1 t hne

theorem filter_zone_frame_eq {T : Int} {zsa zsb : List Zone}
    (h : ZoneFrame T zsa zsb) (t : Int) (hne : t ≠ T) :
    zsa.filter (fun z => z.truckId == t) = zsb.filter (fun z => z.truckId == t) := by
  induction h with
  | nil => rfl
  | cons hrel hrest ih =>
      rename_i a b l1 l2
      obtain ⟨h1, h2, h3, h4, h5, h6, h7⟩ := hrel
      by_cases hat : a.truckId = t
      · have hab : a = b := by
          have hstat : a.status = b.status := h7 (by rw [hat]; exact hne)
          cases a; cases b; simp_all
        rw [hab]
        have hbt : (b.truckId == t) = true := by
          rw [← hab]
          simp [hat]
        simp only [List.filter, hbt]
        rw [ih]
      · have hbt : (a.truckId == t) = false := by simp [hat]
        have hbt' : (b.truckId == t) = false := by rw [← h2]; exact hbt
        simp only [List.filter, hbt, hbt']
        exact ih

theorem get_zones_frame_eq {T : Int} {sa sb : ServerState}
    (h : StateFrame T sa sb) (t : Int) (hne : t ≠ T) :
    get_zones_for_truck sa t = get_zones_for_truck sb t :=
  filter_zone_frame_eq h.2.1 t hne

theorem zoneByBin_frame_eq {T : Int} {zsa zsb : List Zone}
    (h : ZoneFrame T zsa zsb) (t : Int) (hne : t ≠ T) (binId : Int) :
    zoneByBin zsa t binId = zoneByBin zsb t binId := by
  unfold zoneByBin
  rw [filter_zone_frame_eq h t hne]

theorem setFirstZoneStatusByKey_frame₂ {T : Int} {zsa zsb : List Zone}
    (h : ZoneFrame T zsa zsb) (t binId : Int) (st : String) :
    ZoneFrame T (setFirstZoneStatusByKey zsa t binId st)
      (setFirstZoneStatusByKey zsb t binId st) := by
  induction h with
  | nil => exact List.Forall₂.nil
  | cons hrel hrest ih =>
      rename_i a b l1 l2
      obtain ⟨h1, h2, h3, h4, h5, h6, h7⟩ := hrel
      unfold setFirstZoneStatusByKey
      by_cases hc : (a.truckId == t && a.binId == binId) = true
      · have hc' : (b.truckId == t && b.binId == binId) = true := by
          rw [← h2, ← h4]; exact hc
        rw [if_pos hc, if_pos hc']
        exact List.Forall₂.cons ⟨h1, h2, h3, h4, h5, h6, fun _ => rfl⟩ hrest
      · have hc' : ¬(b.truckId == t && b.binId == binId) = true := by
          rw [← h2, ← h4]; exact hc
        rw [if_neg hc, if_neg hc']
        exact List.Forall₂.cons ⟨h1, h2, h3, h4, h5, h6, h7⟩ ih

theorem setLastZoneStatus_frame₂ {T : Int} {zsa zsb : List Zone}
    (h : ZoneFrame T zsa zsb) (t binId : Int) (st : String) :
    ZoneFrame T (setLastZoneStatus zsa t binId st)
      (setLastZoneStatus zsb t binId st) := by
  unfold setLastZoneStatus
  exact List.rel_reverse
    (setFirstZoneStatusByKey_frame₂ (List.rel_reverse h) t binId st)

theorem setFirstRouteStatus_frame₂ {T : Int} {rsa rsb : List Route}
    (h : RouteFrame T rsa rsb) (t : Int) (st : String) :
    RouteFrame T (setFirstRouteStatus rsa t st)
      (setFirstRouteStatus rsb t st) := by
  induction h with
  | nil => exact List.Forall₂.nil
  | cons hrel hrest ih =>
      rename_i a b l1 l2
      obtain ⟨h1, h2, h3, h4, h5, h6⟩ := hrel
      unfold setFirstRouteStatus
      by_cases hc : (a.truckId == t) = true
      · have hc' : (b.truckId == t) = true := by rw [← h1]; exact hc
        rw [if_pos hc, if_pos hc']
        exact List.Forall₂.cons ⟨h1, h2, h3, h4, h5, fun _ => rfl⟩ hrest
      · have hc' : ¬(b.truckId == t) = true := by rw [← h1]; exact hc
        rw [if_neg hc, if_neg hc']
        exact List.Forall₂.cons ⟨h1, h2, h3, h4, h5, h6⟩ ih

theorem setTS_frame₂ {T : Int} {tsa tsb : List (Int × TruckState)}
    (h : TSFrame T tsa tsb) (t : Int) (v : TruckState) :
    TSFrame T (setTS tsa t v) (setTS tsb t v) := by
  intro k hk
  by_cases hkt : k = t
  · subst hkt
    rw [lookupTS_setTS_self, lookupTS_setTS_self]
  · rw [lookupTS_setTS_ne _ _ _ _ hkt, lookupTS_setTS_ne _ _ _ _ hkt]
    exact h k hk

theorem update_route_status_frame₂ {T : Int} {sa sb : ServerState}
    (h : StateFrame T sa sb) (t : Int) (hne : t ≠ T) :
    StateFrame T (update_route_status sa t) (update_route_status sb t) := by
  unfold update_route_status
  rw [← get_route_frame_eq h t hne]
  split
  · exact h
  · rw [get_zones_frame_eq h t hne]
    exact ⟨setFirstRouteStatus_frame₂ h.1 t _, h.2.1, h.2.2⟩

theorem init_frame₂ {T : Int} {sa sb : ServerState}
    (h : StateFrame T sa sb) (t : Int) (hne : t ≠ T) (b : Bool) :
    StateFrame T (init_truck_state_if_needed sa t b)
        (init_truck_state_if_needed sb t b)
      ∧ lookupTS (init_truck_state_if_needed sa t b).truckState t
          = lookupTS (init_truck_state_if_needed sb t b).truckState t := by
  have hlk : lookupTS sa.truckState t = lookupTS sb.truckState t := h.2.2 t hne
  unfold init_truck_state_if_needed
  rw [← hlk]
  split
  · refine ⟨⟨h.1, h.2.1, setTS_frame₂ h.2.2 t _⟩, ?_⟩
    rw [lookupTS_setTS_self, lookupTS_setTS_self]
  · exact ⟨h, hlk⟩

/-- Two states that agree outside truck `T`'s frame are indistinguishable
to truck `t`'s walk (`t ≠ T`): the walks return the same twin and timeline
and their output states still agree outside `T`'s frame. -/
theorem simWalkAux_frame₂ {T t : Int} (hne : t ≠ T)
    (dist : String → String → ℚ) :
    ∀ (nodes : List String) (stepIdx : Nat) (sa sb : ServerState)
      (st : TruckState) (tl : List TimelineEntry),
      StateFrame T sa sb →
      StateFrame T (simWalkAux dist t stepIdx nodes sa st tl).1
          (simWalkAux dist t stepIdx nodes sb st tl).1
        ∧ (simWalkAux dist t stepIdx nodes sa st tl).2.1
            = (simWalkAux dist t stepIdx nodes sb st tl).2.1
        ∧ (simWalkAux dist t stepIdx nodes sa st tl).2.2
            = (simWalkAux dist t stepIdx nodes sb st tl).2.2 := by
  intro nodes
  induction nodes with
  | nil => exact fun stepIdx sa sb st tl h => ⟨h, rfl, rfl⟩
  | cons src rest ih =>
      cases rest with
      | nil => exact fun stepIdx sa sb st tl h => ⟨h, rfl, rfl⟩
      | cons dst rest' =>
          intro stepIdx sa sb st tl h
          rw [simWalkAux]
          rw [simWalkAux]
          dsimp only
          split
          · exact ⟨h, rfl, rfl⟩
          · by_cases hdep : (dst != DEPOT_NAME) = true
            · simp only [hdep, if_true]
              cases hp : parseIntStr dst with
              | none =>
                  simp only [hp]
                  exact ih (stepIdx + 1) sa sb _ _ h
              | some binId =>
                  simp only [hp]
                  rw [← zoneByBin_frame_eq h.2.1 t hne binId]
                  cases hzb : zoneByBin sa.zones t binId with
                  | none =>
                      simp only [hzb]
                      exact ih (stepIdx + 1) sa sb _ _ h
                  | some z =>
                      simp only [hzb]
                      by_cases hpend : (z.status == "Pending") = true
                      · rw [if_pos hpend]
                        dsimp only
                        have hupd : StateFrame T
                            (update_route_status
                              { sa with
                                zones := (setLastZoneStatus sa.zones t z.binId "Collected") } t)
                            (update_route_status
                              { sb with
                                zones := (setLastZoneStatus sb.zones t z.binId "Collected") } t) :=
                          update_route_status_frame₂
                            (show StateFrame T
                                { sa with
                                  zones := (setLastZoneStatus sa.zones t z.binId "Collected") }
                                { sb with
                                  zones := (setLastZoneStatus sb.zones t z.binId "Collected") } from
                              ⟨h.1, setLastZoneStatus_frame₂ h.2.1 t z.binId
                                "Collected", h.2.2⟩) t hne
                        split
                        · exact ⟨hupd, rfl, rfl⟩
                        · exact ih (stepIdx + 1) _ _ _ _ hupd
                      · rw [if_neg hpend]
                        dsimp only
                        exact ih (stepIdx + 1) sa sb _ _ h
            · have hdep' : (dst != DEPOT_NAME) = false := by
                simpa using hdep
              simp only [hdep', Bool.false_eq_true, if_false]
              exact ih (stepIdx + 1) sa sb _ _ h

/-- A full-route simulation for `t` maps frame-agreeing states to
frame-agreeing states (`t ≠ T`). -/
theorem simulate_frame₂ {T t : Int} (hne : t ≠ T)
    (dist : String → String → ℚ) {sa sb : ServerState}
    (h : StateFrame T sa sb) (b : Bool) :
    StateFrame T (simulate_truck_full_route dist sa t b).2
      (simulate_truck_full_route dist sb t b).2 := by
  obtain ⟨hI, hlkI⟩ := init_frame₂ h t hne b
  rw [simulate_truck_full_route]
  rw [simulate_truck_full_route]
  dsimp only
  rw [← get_route_frame_eq hI t hne]
  split
  · exact hI
  · rename_i route hreq
    split
    · exact hI
    · dsimp only
      rw [← hlkI]
      obtain ⟨hW, hst, htl⟩ := simWalkAux_frame₂ hne dist route.nodeSequence 0
        (init_truck_state_if_needed sa t b) (init_truck_state_if_needed sb t b)
        (update_kpis
          { (lookupTS (init_truck_state_if_needed sa t b).truckState t).getD
              (defaultTruckState t) with
            currentLocation := DEPOT_NAME, status := "COLLECTING" }) [] hI
      rw [← hst]
      rw [← get_zones_frame_eq hW t hne]
      split
      · apply update_route_status_frame₂ ?fr t hne
        case fr => exact ⟨hW.1, hW.2.1, setTS_frame₂ hW.2.2 t _⟩
      · exact ⟨hW.1, hW.2.1, setTS_frame₂ hW.2.2 t _⟩

/-- A list determined on `t1`-positions by `A` and on the rest by `B` is
unique (`t1 ≠ t2`; `X`, `Y` both agree with `A` off `t1` and with `B` off
`t2`). -/
theorem zoneFrame_unique {t1 t2 : Int} (hne : t1 ≠ t2) :
    ∀ {A B X Y : List Zone},
      ZoneFrame t1 A X → ZoneFrame t2 B X → ZoneFrame t1 A Y
        → ZoneFrame t2 B Y → X = Y := by
  intro A
  induction A with
  | nil =>
      intro B X Y hax hbx hay hby
      cases hax
      cases hay
      rfl
  | cons a A' ih =>
      intro B X Y hax hbx hay hby
      cases hax with
      | cons hax1 haxR =>
        cases hay with
        | cons hay1 hayR =>
          cases hbx with
          | cons hbx1 hbxR =>
            cases hby with
            | cons hby1 hbyR =>
              rename_i x X' y Y' b B'
              congr 1
              · obtain ⟨xa1, xa2, xa3, xa4, xa5, xa6, xa7⟩ := hax1
                obtain ⟨ya1, ya2, ya3, ya4, ya5, ya6, ya7⟩ := hay1
                obtain ⟨xb1, xb2, xb3, xb4, xb5, xb6, xb7⟩ := hbx1
                obtain ⟨yb1, yb2, yb3, yb4, yb5, yb6, yb7⟩ := hby1
                by_cases hat : a.truckId = t1
                · have hbt : b.truckId ≠ t2 := by
                    rw [xb2, ← xa2, hat]
                    exact hne
                  have hxs : b.status = x.status := xb7 hbt
                  have hys : b.status = y.status := yb7 hbt
                  cases x; cases y; simp_all
                · have hxs : a.status = x.status := xa7 hat
                  have hys : a.status = y.status := ya7 hat
                  cases x; cases y; simp_all
              · exact ih haxR hbxR hayR hbyR

/-- Route-list analogue of `zoneFrame_unique`. -/
theorem routeFrame_unique {t1 t2 : Int} (hne : t1 ≠ t2) :
    ∀ {A B X Y : List Route},
      RouteFrame t1 A X → RouteFrame t2 B X → RouteFrame t1 A Y
        → RouteFrame t2 B Y → X = Y := by
  intro A
  induction A with
  | nil =>
      intro B X Y hax hbx hay hby
      cases hax
      cases hay
      rfl
  | cons a A' ih =>
      intro B X Y hax hbx hay hby
      cases hax with
      | cons hax1 haxR =>
        cases hay with
        | cons hay1 hayR =>
          cases hbx with
          | cons hbx1 hbxR =>
            cases hby with
            | cons hby1 hbyR =>
              rename_i x X' y Y' b B'
              congr 1
              · obtain ⟨xa1, xa2, xa3, xa4, xa5, xa6⟩ := hax1
                obtain ⟨ya1, ya2, ya3, ya4, ya5, ya6⟩ := hay1
                obtain ⟨xb1, xb2, xb3, xb4, xb5, xb6⟩ := hbx1
                obtain ⟨yb1, yb2, yb3, yb4, yb5, yb6⟩ := hby1
                by_cases hat : a.truckId = t1
                · have hbt : b.truckId ≠ t2 := by
                    rw [xb1, ← xa1, hat]
                    exact hne
                  have hxs : b.status = x.status := xb6 hbt
                  have hys : b.status = y.status := yb6 hbt
                  cases x; cases y; simp_all
                · have hxs : a.status = x.status := xa6 hat
                  have hys : a.status = y.status := ya6 hat
                  cases x; cases y; simp_all
              · exact ih haxR hbxR hayR hbyR

/-- The fleet fold's state component equals the plain per-truck fold. -/
theorem simulate_fleet_state_fold (dist : String → String → ℚ) (b : Bool) :
    ∀ (tids : List Int) (outs : List SimResult) (s0 : ServerState),
      (tids.foldl
        (fun acc tid =>
          ((acc.1 ++ [(simulate_truck_full_route dist acc.2 tid b).1],
            (simulate_truck_full_route dist acc.2 tid b).2) :
              List SimResult × ServerState))
        (outs, s0)).2
      = tids.foldl
          (fun acc tid => (simulate_truck_full_route dist acc tid b).2) s0
  | [], outs, s0 => rfl
  | tid :: rest, outs, s0 =>
      simulate_fleet_state_fold dist b rest _ _

/-- C9: fleet simulation is the per-truck walk folded over the routes'
truckIds, and the walks of two distinct trucks commute: run in either
order they produce the same zone list, the same route list and the same
twin for every truck (walks read and write only their own truck's data). -/
theorem C9_fleet_independent (dist : String → String → ℚ) :
    (∀ (s : ServerState) (b : Bool),
        (simulate_fleet dist s b).2
          = (s.routes.map (fun r => r.truckId)).foldl
              (fun acc tid => (simulate_truck_full_route dist acc tid b).2) s)
      ∧ (∀ (t1 t2 : Int), t1 ≠ t2 → ∀ s : ServerState,
          ((simulate_truck_full_route dist
              (simulate_truck_full_route dist s t1 false).2 t2 false).2).zones
            = ((simulate_truck_full_route dist
                (simulate_truck_full_route dist s t2 false).2 t1 false).2).zones
          ∧ ((simulate_truck_full_route dist
              (simulate_truck_full_route dist s t1 false).2 t2 false).2).routes
            = ((simulate_truck_full_route dist
                (simulate_truck_full_route dist s t2 false).2 t1 false).2).routes
          ∧ ∀ k : Int,
              lookupTS ((simulate_truck_full_route dist
                (simulate_truck_full_route dist s t1 false).2 t2 false).2).truckState k
              = lookupTS ((simulate_truck_full_route dist
                  (simulate_truck_full_route dist s t2 false).2 t1 false).2).truckState k) := by
  constructor
  · intro s b
    unfold simulate_fleet
    exact simulate_fleet_state_fold dist b _ [] s
  · intro t1 t2 hne s
    have hne' : t2 ≠ t1 := hne.symm
    have hW1 : StateFrame t1 s (simulate_truck_full_route dist s t1 false).2 :=
      stateFrame_simulate_self dist s t1 false
    have hW2 : StateFrame t2 s (simulate_truck_full_route dist s t2 false).2 :=
      stateFrame_simulate_self dist s t2 false
    have hX2 : StateFrame t2 (simulate_truck_full_route dist s t1 false).2
        ((simulate_truck_full_route dist
          (simulate_truck_full_route dist s t1 false).2 t2 false).2) :=
      stateFrame_simulate_self dist _ t2 false
    have hY1 : StateFrame t1 (simulate_truck_full_route dist s t2 false).2
        ((simulate_truck_full_route dist
          (simulate_truck_full_route dist s t2 false).2 t1 false).2) :=
      stateFrame_simulate_self dist _ t1 false
    have hR1 : StateFrame t1 (simulate_truck_full_route dist s t2 false).2
        ((simulate_truck_full_route dist
          (simulate_truck_full_route dist s t1 false).2 t2 false).2) :=
      simulate_frame₂ hne' dist hW1 false
    have hR2 : StateFrame t2 (simulate_truck_full_route dist s t1 false).2
        ((simulate_truck_full_route dist
          (simulate_truck_full_route dist s t2 false).2 t1 false).2) :=
      simulate_frame₂ hne dist hW2 false
    refine ⟨?_, ?_, ?_⟩
    · exact zoneFrame_unique hne hR1.2.1 hX2.2.1 hY1.2.1 hR2.2.1
    · exact routeFrame_unique hne hR1.1 hX2.1 hY1.1 hR2.1
    · intro k
      by_cases hk : k = t2
      · subst hk
        rw [← hR1.2.2 k hne', ← hY1.2.2 k hne']
      · rw [← hX2.2.2 k hk, ← hR2.2.2 k hk]

/-- C9 witness: trucks 1 and 2 of the initial data commute. -/
theorem C9_fleet_independent_witness :
    ((simulate_truck_full_route wDist
        (simulate_truck_full_route wDist initialState 1 false).2 2 false).2).zones
      = ((simulate_truck_full_route wDist
          (simulate_truck_full_route wDist initialState 2 false).2 1 false).2).zones
    ∧ ((simulate_truck_full_route wDist
        (simulate_truck_full_route wDist initialState 1 false).2 2 false).2).routes
      = ((simulate_truck_full_route wDist
          (simulate_truck_full_route wDist initialState 2 false).2 1 false).2).routes
    ∧ ∀ k : Int,
        lookupTS ((simulate_truck_full_route wDist
          (simulate_truck_full_route wDist initialState 1 false).2 2 false).2).truckState k
        = lookupTS ((simulate_truck_full_route wDist
            (simulate_truck_full_route wDist initialState 2 false).2 1 false).2).truckState k :=
  (C9_fleet_independent wDist).2 1 2 (by decide) initialState

end ConfirmServer
